import Mathlib

/-! # kms-core: the encoding branch `KmsEncTreeBin`

Shallow embedding of `src/gst-plugins/commons/kmsenctreebin.c`.

* `gint` / `guint` values are integers; the conversions the C code performs are
  written out (`gint_of_guint`, `guint_of_gint`).
* Collaborating GStreamer objects are reduced to what the file reads and writes:
  an element is a name with a property store, the caps filter is its `caps`
  property, a factory is what `kms_enc_tree_bin_create_encoder_for_caps` asks of it.
* Every `g_object_set` on the encoder or the caps filter and every `GST_ERROR`
  of `kms_enc_tree_bin_set_target_bitrate` is appended to the `log` of the
  branch, oldest first; a branch leaves construction with an empty log.
* A function returns `none` where the C code dereferences a `NULL` pointer.
-/

namespace Kms

/-! ## Integers and strings -/

/-- GLib `MAX(a, b) = (((a) > (b)) ? (a) : (b))`. -/
def MAX (a b : Int) : Int := if a > b then a else b

/-- GLib `MIN(a, b) = (((a) < (b)) ? (a) : (b))`. -/
def MIN (a b : Int) : Int := if a < b then a else b

/-- GLib `G_MAXINT`. -/
def G_MAXINT : Int := 2147483647

/-- GLib `G_MININT`. -/
def G_MININT : Int := -2147483648

/-- Storing a `guint` into a `gint` variable (two's complement, 32 bit). -/
def gint_of_guint (v : Nat) : Int :=
  if v % 4294967296 < 2147483648 then ((v % 4294967296 : Nat) : Int)
  else ((v % 4294967296 : Nat) : Int) - 4294967296

/-- Storing a `gint` into a `guint` variable. -/
def guint_of_gint (v : Int) : Int := v % 4294967296

/-- GLib `g_str_has_prefix (str, prefix)`. -/
def g_str_has_prefix (str pre : String) : Bool := pre.toList.isPrefixOf str.toList

/-- GLib `g_strconcat`. -/
def g_strconcat (parts : List String) : String :=
  String.mk (parts.foldr (fun p acc => p.toList ++ acc) [])

/-- Decimal reading of a dimension string such as `"1920"` (leading digits). -/
def dimension_value_aux : List Char → Nat → Nat
  | [], acc => acc
  | c :: cs, acc =>
    if 48 ≤ c.toNat ∧ c.toNat ≤ 57 then dimension_value_aux cs (acc * 10 + (c.toNat - 48))
    else acc

/-- Number denoted by a dimension string. -/
def dimension_value (s : String) : Nat := dimension_value_aux s.toList 0

/-! ## Data model -/

/-- The C enumeration `EncoderType`. -/
inductive EncoderType
  | VAAPIVP8
  | VAAPIH264
  | VP8
  | X264
  | OPENH264
  | OPUS
  | UNSUPPORTED
deriving DecidableEq, Repr

/-- A GStreamer element as far as this file uses it: its name and the current
values of its properties. -/
structure GstElement where
  name : String
  props : List (String × Int)
deriving DecidableEq, Repr

/-- Reading a property with `g_object_get`; a property that holds no value reads 0. -/
def g_object_get (e : GstElement) (prop : String) : Int :=
  match e.props.lookup prop with
  | some v => v
  | none => 0

/-- Replace (or add) the value stored under a property name. -/
def props_set : List (String × Int) → String → Int → List (String × Int)
  | [], prop, v => [(prop, v)]
  | (k, w) :: rest, prop, v =>
    if k = prop then (k, v) :: rest else (k, w) :: props_set rest prop v

/-- Writing a property with `g_object_set`: the element keeps the value written. -/
def g_object_set (e : GstElement) (prop : String) (v : Int) : GstElement :=
  { e with props := props_set e.props prop v }

/-- Observable actions of the branch on its collaborators. -/
inductive Effect
  /-- The call `g_object_set (priv->enc, prop, value, NULL)`. -/
  | enc_set (prop : String) (value : Int)
  /-- The call `g_object_set (priv->capsfilter, "caps", gst_caps_from_string (caps), NULL)`. -/
  | capsfilter_set (caps : String)
  /-- The statement `GST_ERROR (msg)`. -/
  | error (msg : String)
deriving DecidableEq, Repr

/-- Whether an effect writes a parameter of the encoder or of the resolution filter. -/
def Effect.is_push : Effect → Bool
  | .enc_set _ _ => true
  | .capsfilter_set _ => true
  | .error _ => false

/-- The C structure `_KmsEncTreeBinPrivate` of a configured branch, together
with the log of its effects. `width` and `height` are `none` for `NULL`;
`capsfilter` is the `caps` property of `priv->capsfilter`, `none` when there is
no such element. -/
structure KmsEncTreeBin where
  enc : GstElement
  mediator : String
  capsfilter : Option String
  enc_type : EncoderType
  width : Option String
  height : Option String
  remb_bitrate : Int
  tag_bitrate : Int
  current_bitrate : Int
  max_bitrate : Int
  min_bitrate : Int
  /-- Elements added to the bin, in the order of the `gst_bin_add` calls. -/
  elements : List String := []
  log : List Effect := []
deriving DecidableEq, Repr

/-! ## Bitrate fusion and application -/

/-- The C macro `KMS_ENC_TREE_BIN_LIMIT(obj, value)`, as a function of the two
bounds `obj->priv->min_bitrate` and `obj->priv->max_bitrate` it reads. -/
def KMS_ENC_TREE_BIN_LIMIT (min_bitrate max_bitrate value : Int) : Int :=
  MAX min_bitrate (MIN max_bitrate value)

/-- The clamped value computed by the first `if` chain of
`kms_enc_tree_bin_get_bitrate` (lines 296-303), before the `<= 0` test. -/
def fusion_candidate (self : KmsEncTreeBin) : Int :=
  if self.remb_bitrate ≤ 0 then
    KMS_ENC_TREE_BIN_LIMIT self.min_bitrate self.max_bitrate self.tag_bitrate
  else if self.tag_bitrate ≤ 0 then
    KMS_ENC_TREE_BIN_LIMIT self.min_bitrate self.max_bitrate self.remb_bitrate
  else
    KMS_ENC_TREE_BIN_LIMIT self.min_bitrate self.max_bitrate
      (MIN self.remb_bitrate self.tag_bitrate)

/-- The C function `kms_enc_tree_bin_get_bitrate`: the returned bitrate and the
branch after the call. -/
def kms_enc_tree_bin_get_bitrate (self : KmsEncTreeBin) : Int × KmsEncTreeBin :=
  let bitrate := fusion_candidate self
  if bitrate ≤ 0 then
    (self.current_bitrate, self)
  else
    (bitrate, { self with current_bitrate := bitrate })

/-- The `if` chain of `kms_enc_tree_bin_set_target_bitrate` (lines 350-374) that
picks `new_width` and `new_height` for the hardware encoders. -/
def vaapi_resolution (target_bitrate : Int) : String × String :=
  if target_bitrate ≥ 4000000 then ("1920", "1080")
  else if target_bitrate > 2750000 then ("1600", "900")
  else if target_bitrate > 1500000 then ("1280", "720")
  else if target_bitrate > 1250000 then ("960", "540")
  else if target_bitrate > 1000000 then ("800", "450")
  else if target_bitrate > 800000 then ("640", "360")
  else if target_bitrate > 400000 then ("480", "270")
  else ("320", "180")

/-- The statement `GST_ERROR ("Skip setting bitrate, encoder not supported")`. -/
def report_unsupported (self : KmsEncTreeBin) : KmsEncTreeBin :=
  { self with log := self.log ++ [Effect.error "Skip setting bitrate, encoder not supported"] }

/-- The call `g_object_set (self->priv->enc, prop, value, NULL)`. -/
def enc_set (self : KmsEncTreeBin) (prop : String) (value : Int) : KmsEncTreeBin :=
  { self with enc := g_object_set self.enc prop value,
              log := self.log ++ [Effect.enc_set prop value] }

/-- The body of the `VAAPIVP8`/`VAAPIH264` case (lines 337-392). -/
def apply_vaapi (self : KmsEncTreeBin) (target_bitrate : Int) : Option KmsEncTreeBin :=
  let new_br := guint_of_gint (Int.tdiv target_bitrate 500)
  let last_br := g_object_get self.enc "bitrate"
  let self := if last_br ≠ new_br then enc_set self "bitrate" new_br else self
  let new_width := (vaapi_resolution target_bitrate).1
  let new_height := (vaapi_resolution target_bitrate).2
  match self.width with
  | none => none
  | some width =>
    if new_width ≠ width then
      let filter_caps := g_strconcat ["video/x-raw,width=", new_width, ",height=", new_height]
      some { self with width := some new_width,
                       height := some new_height,
                       capsfilter := self.capsfilter.map (fun _ => filter_caps),
                       log := self.log ++ [Effect.capsfilter_set filter_caps] }
    else
      some self

/-- The C function `kms_enc_tree_bin_set_target_bitrate`. The `OPENH264` case
has no `break` and runs into `default`. -/
def kms_enc_tree_bin_set_target_bitrate (self : KmsEncTreeBin) : Option KmsEncTreeBin :=
  let target_bitrate := (kms_enc_tree_bin_get_bitrate self).1
  let self := (kms_enc_tree_bin_get_bitrate self).2
  if target_bitrate ≤ 0 then
    some self
  else
    match self.enc_type with
    | .VAAPIVP8 => apply_vaapi self target_bitrate
    | .VAAPIH264 => apply_vaapi self target_bitrate
    | .VP8 =>
      let last_br := g_object_get self.enc "target-bitrate"
      if Int.tdiv last_br 1000 ≠ Int.tdiv target_bitrate 1000 then
        some (enc_set self "target-bitrate" target_bitrate)
      else
        some self
    | .X264 =>
      let new_br := guint_of_gint (Int.tdiv target_bitrate 1000)
      let last_br := g_object_get self.enc "bitrate"
      if last_br ≠ new_br then some (enc_set self "bitrate" new_br) else some self
    | .OPENH264 =>
      let new_br := guint_of_gint target_bitrate
      let last_br := g_object_get self.enc "bitrate"
      let self := if last_br / 1000 ≠ new_br / 1000 then enc_set self "bitrate" new_br else self
      some (report_unsupported self)
    | .OPUS => some (report_unsupported self)
    | .UNSUPPORTED => some (report_unsupported self)

/-- The C function `kms_enc_tree_bin_set_bitrate_limits`. -/
def kms_enc_tree_bin_set_bitrate_limits (self : KmsEncTreeBin) (min_bitrate max_bitrate : Int) :
    Option KmsEncTreeBin :=
  kms_enc_tree_bin_set_target_bitrate
    { self with max_bitrate := max_bitrate, min_bitrate := min_bitrate }

/-- The C function `kms_enc_tree_bin_get_min_bitrate`. -/
def kms_enc_tree_bin_get_min_bitrate (self : KmsEncTreeBin) : Int := self.min_bitrate

/-- The C function `kms_enc_tree_bin_get_max_bitrate`. -/
def kms_enc_tree_bin_get_max_bitrate (self : KmsEncTreeBin) : Int := self.max_bitrate

/-- The C function `bitrate_callback`; `bitrate` is a `guint`. -/
def bitrate_callback (self : KmsEncTreeBin) (bitrate : Nat) : Option KmsEncTreeBin :=
  if bitrate ≠ 0 then
    kms_enc_tree_bin_set_target_bitrate { self with remb_bitrate := gint_of_guint bitrate }
  else
    some self

/-- The pad events the probes look at. A tag event carries the `guint` stored
under `"bitrate"` in its tag list, if any; a caps event carries the `width` and
`height` of the first structure of its caps. -/
inductive GstEvent
  | tag (bitrate : Option Nat)
  | caps (width height : Int)
  | other
deriving DecidableEq, Repr

/-- The C function `tag_event_probe`. -/
def tag_event_probe (self : KmsEncTreeBin) (event : GstEvent) : Option KmsEncTreeBin :=
  match event with
  | .tag (some bitrate) =>
    kms_enc_tree_bin_set_target_bitrate { self with tag_bitrate := gint_of_guint bitrate }
  | _ => some self

/-! ## Dimension parity -/

/-- The C function `check_caps_probe`: the `width` and `height` set on the caps
(`video/x-raw,format=I420`) given to the parent element of the pad, or `none`
when the probe sets nothing. `%` of C is `Int.tmod`. -/
def check_caps_probe (event : GstEvent) : Option (Int × Int) :=
  match event with
  | .caps width height =>
    let needs_filter := false
    let needs_filter := if Int.tmod width 2 ≠ 0 then true else needs_filter
    let width := if Int.tmod width 2 ≠ 0 then width - 1 else width
    let needs_filter := if Int.tmod height 2 ≠ 0 then true else needs_filter
    let height := if Int.tmod height 2 ≠ 0 then height - 1 else height
    if !needs_filter then none else some (width, height)
  | _ => none

/-! ## Encoder selection and construction -/

/-- A field of the `codec_configs` structure. A field of type
`GST_TYPE_STRUCTURE` lists, per parameter name, the supplied value read in the
native type of the encoder property of that name, `none` when
`gst_value_deserialize` rejects it. -/
inductive ConfigField
  | nested (fields : List (String × Option Int))
  | plain
deriving DecidableEq, Repr

/-- An encoder factory of the registry: its name, the number of its pad
templates, the media types its source pads produce, the name an instance
created with a `NULL` name receives, and the property values of a fresh
instance. -/
structure GstElementFactory where
  name : String
  num_pad_templates : Nat
  src_caps : List String
  element_name : String
  props : List (String × Int)
deriving DecidableEq, Repr

/-- The caps a branch is built for, with what the helpers of `kmsutils` answer
for them: `kms_utils_caps_is_audio`, the element of
`kms_utils_create_rate_for_caps` (`none` for `NULL`), of
`kms_utils_create_convert_for_caps` and of `kms_utils_create_mediator_element`. -/
structure GstCaps where
  media_type : String
  is_audio : Bool
  rate : Option String
  convert : String
  mediator : String
deriving DecidableEq, Repr

/-- The C function `kms_enc_tree_bin_get_name_from_type`; `none` is `NULL`. -/
def kms_enc_tree_bin_get_name_from_type (enc_type : EncoderType) : Option String :=
  match enc_type with
  | .VP8 => some "vp8"
  | .X264 => some "x264"
  | .OPENH264 => some "openh264"
  | .OPUS => some "opus"
  | _ => none

/-- The loop body of `set_encoder_configuration` (lines 110-135) over the
property names of the encoder class. -/
def apply_overrides (config : List (String × Option Int)) :
    List String → GstElement → GstElement
  | [], encoder => encoder
  | name :: names, encoder =>
    match config.lookup name with
    | some (some final_value) => apply_overrides config names (g_object_set encoder name final_value)
    | some none => apply_overrides config names encoder
    | none => apply_overrides config names encoder

/-- The C function `set_encoder_configuration`. -/
def set_encoder_configuration (encoder : GstElement)
    (codec_config : Option (List (String × ConfigField))) (config_name : Option String) :
    GstElement :=
  match codec_config, config_name with
  | some fields, some config_name =>
    match fields.lookup config_name with
    | some (.nested config) => apply_overrides config (encoder.props.map Prod.fst) encoder
    | _ => encoder
  | _, _ => encoder

/-- The presets of `configure_encoder` (the `switch`, lines 147-206). -/
def encoder_presets (type : EncoderType) (target_bitrate : Int) : List (String × Int) :=
  match type with
  | .VP8 =>
    [("deadline", 200000), ("threads", 1), ("cpu-used", 16), ("resize-allowed", 1),
     ("target-bitrate", target_bitrate), ("end-usage", 1)]
  | .VAAPIH264 => [("bitrate", Int.tdiv target_bitrate 1000), ("rate-control", 2)]
  | .VAAPIVP8 => [("bitrate", Int.tdiv target_bitrate 1000), ("rate-control", 2)]
  | .X264 =>
    [("speed-preset", 3), ("threads", 1), ("bitrate", Int.tdiv target_bitrate 1000),
     ("key-int-max", 60), ("tune", 4)]
  | .OPENH264 => [("rate-control", 1), ("bitrate", target_bitrate)]
  | .OPUS => [("inband-fec", 1), ("perfect-timestamp", 1)]
  | .UNSUPPORTED => []

/-- The C function `configure_encoder`. -/
def configure_encoder (encoder : GstElement) (type : EncoderType) (target_bitrate : Int)
    (codec_configs : Option (List (String × ConfigField))) : GstElement :=
  let encoder := (encoder_presets type target_bitrate).foldl
    (fun e kv => g_object_set e kv.1 kv.2) encoder
  set_encoder_configuration encoder codec_configs (kms_enc_tree_bin_get_name_from_type type)

/-- The C function `kms_enc_tree_bin_set_encoder_type`, on the name of the
encoder instance. -/
def kms_enc_tree_bin_set_encoder_type (name : String) : EncoderType :=
  if g_str_has_prefix name "vaapiencodevp8" then .VAAPIVP8
  else if g_str_has_prefix name "vaapiencodeh264" then .VAAPIH264
  else if g_str_has_prefix name "vp8enc" then .VP8
  else if g_str_has_prefix name "x264enc" then .X264
  else if g_str_has_prefix name "openh264enc" then .OPENH264
  else if g_str_has_prefix name "opusenc" then .OPUS
  else .UNSUPPORTED

/-- The rank hack of `kms_enc_tree_bin_create_encoder_for_caps` (lines 248-257). -/
def augment_openh264_rank (encoder_list : List GstElementFactory) : List GstElementFactory :=
  match encoder_list.find? (fun f => g_str_has_prefix f.name "openh264") with
  | some encoder_factory => encoder_factory :: encoder_list.erase encoder_factory
  | none => encoder_list

/-- The call `gst_element_factory_list_filter (list, caps, GST_PAD_SRC, FALSE)`. -/
def gst_element_factory_list_filter (list : List GstElementFactory) (caps : GstCaps) :
    List GstElementFactory :=
  list.filter (fun f => f.src_caps.contains caps.media_type)

/-- The call `gst_element_factory_create (factory, NULL)`. -/
def gst_element_factory_create (factory : GstElementFactory) : GstElement :=
  { name := factory.element_name, props := factory.props }

/-- The C function `kms_enc_tree_bin_create_encoder_for_caps` on the encoder
factories of the registry. The result is `none` when `filtered_list->data` is
read on an empty list, `some none` when `priv->enc` stays `NULL`, and the
configured encoder with its type otherwise. -/
def kms_enc_tree_bin_create_encoder_for_caps (registry : List GstElementFactory)
    (caps : GstCaps) (target_bitrate : Int)
    (codec_configs : Option (List (String × ConfigField))) :
    Option (Option (GstElement × EncoderType)) :=
  let encoder_list := augment_openh264_rank registry
  let filtered_list := gst_element_factory_list_filter encoder_list caps
  match filtered_list with
  | [] => none
  | first :: rest =>
    let filtered_list := if g_str_has_prefix first.name "openh264enc" then rest else first :: rest
    match filtered_list.find? (fun f => f.num_pad_templates = 2) with
    | some encoder_factory =>
      let enc := gst_element_factory_create encoder_factory
      let enc_type := kms_enc_tree_bin_set_encoder_type enc.name
      some (some (configure_encoder enc enc_type target_bitrate codec_configs, enc_type))
    | none => some none

/-- Whether the kind is one of the two hardware encoders. -/
def is_vaapi (enc_type : EncoderType) : Bool :=
  enc_type = .VAAPIVP8 || enc_type = .VAAPIH264

/-- The C function `kms_enc_tree_bin_configure` on an object whose bounds are
`min_bitrate` and `max_bitrate` and whose other fields are as
`kms_enc_tree_bin_init` leaves them. `some none` is the return value `FALSE`. -/
def kms_enc_tree_bin_configure (min_bitrate max_bitrate : Int)
    (registry : List GstElementFactory) (caps : GstCaps) (target_bitrate : Int)
    (codec_configs : Option (List (String × ConfigField))) : Option (Option KmsEncTreeBin) :=
  match kms_enc_tree_bin_create_encoder_for_caps registry caps target_bitrate codec_configs with
  | none => none
  | some none => some none
  | some (some (enc, enc_type)) =>
    let mediator :=
      if is_vaapi enc_type && !caps.is_audio then "vaapipostproc" else caps.mediator
    let rate := match caps.rate with
      | some rate => [rate]
      | none => []
    let elements := rate ++ [caps.convert, mediator, "queue", enc.name]
    let elements := if enc_type = .X264 then elements ++ ["capsfilter"] else elements
    let elements := if is_vaapi enc_type then elements ++ ["capsfilter"] else elements
    let elements := if is_vaapi enc_type then elements ++ ["streamfilter"] else elements
    some (some
      { enc := enc,
        mediator := mediator,
        capsfilter :=
          if is_vaapi enc_type then some "video/x-raw,width=320,height=180"
          else if enc_type = .X264 then some "video/x-raw,format=I420"
          else none,
        enc_type := enc_type,
        width := if is_vaapi enc_type then some "320" else none,
        height := if is_vaapi enc_type then some "180" else none,
        remb_bitrate := -1,
        tag_bitrate := -1,
        current_bitrate := target_bitrate,
        max_bitrate := max_bitrate,
        min_bitrate := min_bitrate,
        elements := elements,
        log := [] })

/-- The C function `kms_enc_tree_bin_new`; `some none` is the return value `NULL`. -/
def kms_enc_tree_bin_new (registry : List GstElementFactory) (caps : GstCaps)
    (target_bitrate min_bitrate max_bitrate : Int)
    (codec_configs : Option (List (String × ConfigField))) : Option (Option KmsEncTreeBin) :=
  let target_bitrate := KMS_ENC_TREE_BIN_LIMIT min_bitrate max_bitrate target_bitrate
  kms_enc_tree_bin_configure min_bitrate max_bitrate registry caps target_bitrate codec_configs

/-! ## Event sequences -/

/-- The three inputs of a running branch: a remote estimate delivered to
`bitrate_callback`, a tag event carrying a bitrate delivered to
`tag_event_probe`, and a call of `kms_enc_tree_bin_set_bitrate_limits`. -/
inductive Event
  | remote_estimate (bitrate : Nat)
  | source_hint (bitrate : Nat)
  | set_limits (min_bitrate max_bitrate : Int)
deriving DecidableEq, Repr

/-- One event applied to a branch. -/
def step (self : KmsEncTreeBin) : Event → Option KmsEncTreeBin
  | .remote_estimate bitrate => bitrate_callback self bitrate
  | .source_hint bitrate => tag_event_probe self (.tag (some bitrate))
  | .set_limits min_bitrate max_bitrate =>
    kms_enc_tree_bin_set_bitrate_limits self min_bitrate max_bitrate

/-- A sequence of events applied to a branch, in order. -/
def run : List Event → KmsEncTreeBin → Option KmsEncTreeBin
  | [], self => some self
  | e :: es, self =>
    match step self e with
    | some self => run es self
    | none => none

/-- Whether the bounds an event carries are ordered (`min <= max`). -/
def Event.bounds_ordered : Event → Prop
  | .set_limits min_bitrate max_bitrate => min_bitrate ≤ max_bitrate
  | _ => True

/-- The effects a run appended to the log: what `after` logged beyond `before`. -/
def new_effects (before after : KmsEncTreeBin) : List Effect :=
  after.log.drop before.log.length

/-- The parameter writes among the effects a run appended to the log. -/
def new_pushes (before after : KmsEncTreeBin) : List Effect :=
  (new_effects before after).filter Effect.is_push

/-! ## Derived notions used by the statements -/

/-- The value `current_bitrate` holds after `kms_enc_tree_bin_get_bitrate`. -/
def fused_bitrate (self : KmsEncTreeBin) : Int :=
  if fusion_candidate self ≤ 0 then self.current_bitrate else fusion_candidate self

/-- The bitrate of the branch lies within its bounds. -/
def in_bounds (self : KmsEncTreeBin) : Prop :=
  self.min_bitrate ≤ self.current_bitrate ∧ self.current_bitrate ≤ self.max_bitrate

/-- What a reachable branch satisfies: a hardware branch has its width set,
the bounds are ordered, and the bitrate is within the bounds unless the
clamped candidate is not positive. -/
def reach_inv (self : KmsEncTreeBin) : Prop :=
  (is_vaapi self.enc_type = true → self.width ≠ none) ∧
  self.min_bitrate ≤ self.max_bitrate ∧
  (in_bounds self ∨ fusion_candidate self ≤ 0)

/-- The encoder and the stored width already hold what the `switch` of
`kms_enc_tree_bin_set_target_bitrate` derives from the bitrate `t`: the values
its comparisons test before writing. -/
def in_sync (self : KmsEncTreeBin) (t : Int) : Prop :=
  match self.enc_type with
  | .VAAPIVP8 =>
    g_object_get self.enc "bitrate" = guint_of_gint (Int.tdiv t 500) ∧
      self.width = some (vaapi_resolution t).1
  | .VAAPIH264 =>
    g_object_get self.enc "bitrate" = guint_of_gint (Int.tdiv t 500) ∧
      self.width = some (vaapi_resolution t).1
  | .VP8 => Int.tdiv (g_object_get self.enc "target-bitrate") 1000 = Int.tdiv t 1000
  | .X264 => g_object_get self.enc "bitrate" = guint_of_gint (Int.tdiv t 1000)
  | .OPENH264 => g_object_get self.enc "bitrate" / 1000 = guint_of_gint t / 1000
  | .OPUS => True
  | .UNSUPPORTED => True

/-- The ordered table of the resolution-stepping rule as the specification
gives it: lower bound of the step, width, height. -/
def resolution_table : List (Int × String × String) :=
  [(0, "320", "180"), (400000, "480", "270"), (800000, "640", "360"),
   (1000000, "800", "450"), (1250000, "960", "540"), (1500000, "1280", "720"),
   (2750000, "1600", "900"), (4000000, "1920", "1080")]

/-- The step the specification selects: the row of `resolution_table` whose
lower bound is the greatest bound `<= bitrate`, which is the last such row of
the ordered table; `none` below every bound. -/
def table_step (bitrate : Int) : Option (String × String) :=
  resolution_table.foldl (fun found row => if row.1 ≤ bitrate then some row.2 else found) none

/-- The step of `resolution_table` whose lower bound is the greatest bound
strictly below `bitrate`, the reading of the scenario "480x270 since
400000 < 500000 <= 800000"; `none` when no bound is below. -/
def table_step_below (bitrate : Int) : Option (String × String) :=
  resolution_table.foldl (fun found row => if row.1 < bitrate then some row.2 else found) none

/-- The stored width and height are a step of the `if` chain of
`kms_enc_tree_bin_set_target_bitrate`. -/
def on_table (self : KmsEncTreeBin) : Prop :=
  ∃ b : Int, self.width = some (vaapi_resolution b).1 ∧
    self.height = some (vaapi_resolution b).2

/-- The stored width and height are the step chosen for `current_bitrate`. -/
def tracks_bitrate (self : KmsEncTreeBin) : Prop :=
  self.width = some (vaapi_resolution self.current_bitrate).1 ∧
  self.height = some (vaapi_resolution self.current_bitrate).2

/-- Whether an event reaches `kms_enc_tree_bin_set_target_bitrate`: every event
but a remote estimate of 0. -/
def Event.runs_fusion : Event → Prop
  | .remote_estimate bitrate => bitrate ≠ 0
  | _ => True

/-- Construction of a branch followed by a sequence of events; `none` when no
branch is returned or a step fails. -/
def construct_and_run (registry : List GstElementFactory) (caps : GstCaps)
    (target_bitrate min_bitrate max_bitrate : Int)
    (codec_configs : Option (List (String × ConfigField))) (events : List Event) :
    Option KmsEncTreeBin :=
  match kms_enc_tree_bin_new registry caps target_bitrate min_bitrate max_bitrate
      codec_configs with
  | some (some self) => run events self
  | _ => none

/-! ## Sample data -/

/-- A software VP8 branch with the given signals, bounds and current bitrate. -/
def sample_vp8 (remb tag current mn mx : Int) : KmsEncTreeBin :=
  { enc := { name := "vp8enc0", props := [("target-bitrate", current)] },
    mediator := "videoscale",
    capsfilter := none,
    enc_type := .VP8,
    width := none,
    height := none,
    remb_bitrate := remb,
    tag_bitrate := tag,
    current_bitrate := current,
    max_bitrate := mx,
    min_bitrate := mn }

/-- A registry holding the software VP8 encoder only. -/
def registry_vp8 : List GstElementFactory :=
  [{ name := "vp8enc", num_pad_templates := 2, src_caps := ["video/x-vp8"],
     element_name := "vp8enc0", props := [("target-bitrate", 256000)] }]

/-- Caps asking for VP8 video. -/
def caps_vp8 : GstCaps :=
  { media_type := "video/x-vp8", is_audio := false, rate := some "videorate",
    convert := "videoconvert", mediator := "videoscale" }

/-- A registry holding the hardware H.264 encoder and the software one. -/
def registry_h264 : List GstElementFactory :=
  [{ name := "vaapih264enc", num_pad_templates := 2, src_caps := ["video/x-h264"],
     element_name := "vaapiencodeh264-0", props := [("bitrate", 0)] },
   { name := "x264enc", num_pad_templates := 2, src_caps := ["video/x-h264"],
     element_name := "x264enc0", props := [("bitrate", 2048)] }]

/-- Caps asking for H.264 video. -/
def caps_h264 : GstCaps :=
  { media_type := "video/x-h264", is_audio := false, rate := some "videorate",
    convert := "videoconvert", mediator := "videoscale" }

/-- The hardware H.264 branch that `kms_enc_tree_bin_new` returns for
`registry_h264`, `caps_h264` and the given clamped target and bounds. -/
def branch_h264 (target mn mx : Int) : KmsEncTreeBin :=
  { enc := { name := "vaapiencodeh264-0",
             props := [("bitrate", Int.tdiv target 1000), ("rate-control", 2)] },
    mediator := "vaapipostproc",
    capsfilter := some "video/x-raw,width=320,height=180",
    enc_type := .VAAPIH264,
    width := some "320",
    height := some "180",
    remb_bitrate := -1,
    tag_bitrate := -1,
    current_bitrate := target,
    max_bitrate := mx,
    min_bitrate := mn,
    elements := ["videorate", "videoconvert", "vaapipostproc", "queue", "vaapiencodeh264-0",
                 "capsfilter", "streamfilter"],
    log := [] }

/-- The VP8 branch that `kms_enc_tree_bin_new` returns for `registry_vp8`,
`caps_vp8` and the given clamped target and bounds. -/
def branch_vp8 (target mn mx : Int) : KmsEncTreeBin :=
  { enc := { name := "vp8enc0",
             props := [("target-bitrate", target), ("deadline", 200000), ("threads", 1),
                       ("cpu-used", 16), ("resize-allowed", 1), ("end-usage", 1)] },
    mediator := "videoscale",
    capsfilter := none,
    enc_type := .VP8,
    width := none,
    height := none,
    remb_bitrate := -1,
    tag_bitrate := -1,
    current_bitrate := target,
    max_bitrate := mx,
    min_bitrate := mn,
    elements := ["videorate", "videoconvert", "videoscale", "queue", "vp8enc0"],
    log := [] }

/-- The branch `branch_h264 500000 0 1000000` after one run of
`kms_enc_tree_bin_set_target_bitrate`. -/
def branch_h264_applied : KmsEncTreeBin :=
  { branch_h264 500000 0 1000000 with
    enc := { name := "vaapiencodeh264-0", props := [("bitrate", 1000), ("rate-control", 2)] },
    capsfilter := some "video/x-raw,width=480,height=270",
    width := some "480",
    height := some "270",
    log := [Effect.enc_set "bitrate" 1000,
            Effect.capsfilter_set "video/x-raw,width=480,height=270"] }

/-! ## Derived notions of the encoder selection -/

/-- The capable candidates in order after the rank hack: the list
`filtered_list` of `kms_enc_tree_bin_create_encoder_for_caps` as the filter of
line 261 returns it. -/
def capable_candidates (registry : List GstElementFactory) (caps : GstCaps) :
    List GstElementFactory :=
  gst_element_factory_list_filter (augment_openh264_rank registry) caps

/-- The exclusion rule of lines 269-272 as the specification words it: the
first candidate is skipped when its name starts with `"openh264enc"`. On the
empty list, where the C code reads `filtered_list->data` of a `NULL` list, the
rule has nothing to skip. -/
def after_exclusion : List GstElementFactory → List GstElementFactory
  | [] => []
  | first :: rest =>
    if g_str_has_prefix first.name "openh264enc" then rest else first :: rest

/-- Lines 274-285 of `kms_enc_tree_bin_create_encoder_for_caps`: the configured
instance of the first factory with two pad templates and its type, `none` when
no factory has two pad templates. -/
def select_encoder (filtered_list : List GstElementFactory) (target_bitrate : Int)
    (codec_configs : Option (List (String × ConfigField))) :
    Option (GstElement × EncoderType) :=
  match filtered_list.find? (fun f => f.num_pad_templates = 2) with
  | some encoder_factory =>
    let enc := gst_element_factory_create encoder_factory
    let enc_type := kms_enc_tree_bin_set_encoder_type enc.name
    some (configure_encoder enc enc_type target_bitrate codec_configs, enc_type)
  | none => none

/-- A registry in which another encoder whose name starts with `"openh264"`
precedes `openh264enc`; all three produce H.264 and only the first has three
pad templates. -/
def registry_two_openh264 : List GstElementFactory :=
  [{ name := "openh264auxenc", num_pad_templates := 3, src_caps := ["video/x-h264"],
     element_name := "openh264auxenc0", props := [] },
   { name := "openh264enc", num_pad_templates := 2, src_caps := ["video/x-h264"],
     element_name := "openh264enc0", props := [("bitrate", 128000)] },
   { name := "x264enc", num_pad_templates := 2, src_caps := ["video/x-h264"],
     element_name := "x264enc0", props := [("bitrate", 2048)] }]

/-- A registry in which `x264enc` ranks before `openh264enc`; both produce
H.264 and have two pad templates. -/
def registry_x264_openh264 : List GstElementFactory :=
  [{ name := "x264enc", num_pad_templates := 2, src_caps := ["video/x-h264"],
     element_name := "x264enc0", props := [("bitrate", 2048)] },
   { name := "openh264enc", num_pad_templates := 2, src_caps := ["video/x-h264"],
     element_name := "openh264enc0", props := [("bitrate", 128000)] }]

/-- A branch of the given kind with no feedback yet, bounds [0, 1000000],
current bitrate 300000 and an encoder whose `bitrate` is 300. -/
def sample_branch (enc_type : EncoderType) : KmsEncTreeBin :=
  { enc := { name := "enc0", props := [("bitrate", 300)] },
    mediator := "videoscale",
    capsfilter := none,
    enc_type := enc_type,
    width := none,
    height := none,
    remb_bitrate := -1,
    tag_bitrate := -1,
    current_bitrate := 300000,
    max_bitrate := 1000000,
    min_bitrate := 0 }

/-- The encoder after the presets of `configure_encoder` and before
`set_encoder_configuration` (line 207). -/
def preset_encoder (encoder : GstElement) (type : EncoderType) (target_bitrate : Int) :
    GstElement :=
  (encoder_presets type target_bitrate).foldl (fun e kv => g_object_set e kv.1 kv.2) encoder

/-- The instance parameters `set_encoder_configuration` recognizes: the names
`g_object_class_list_properties` lists for the encoder. -/
def recognized_parameters (encoder : GstElement) : List String :=
  encoder.props.map Prod.fst

/-- A fresh software H.264 encoder instance. -/
def x264enc0 : GstElement :=
  { name := "x264enc0", props := [("bitrate", 2048), ("threads", 0), ("pass", 0)] }

/-- Overrides for the `x264` family: `bitrate` coerces to 999, the value given
for `threads` does not coerce, and `cabac` is no parameter of `x264enc0`. -/
def sample_codec_configs : List (String × ConfigField) :=
  [("vp8", .plain),
   ("x264", .nested [("bitrate", some 999), ("threads", none), ("cabac", some 1)])]

/-- Overrides filed under names one might give the hardware families; each
sets `bitrate` to 777. -/
def sample_vaapi_configs : List (String × ConfigField) :=
  [("vaapih264", .nested [("bitrate", some 777)]),
   ("vaapivp8", .nested [("bitrate", some 777)]),
   ("vaapi", .nested [("bitrate", some 777)])]

/-- The message of the `GST_ERROR` in the `default` case of
`kms_enc_tree_bin_set_target_bitrate`. -/
def unsupported_error : Effect :=
  Effect.error "Skip setting bitrate, encoder not supported"

/-- The parameter and the value, in the unit of the encoder, that the `switch`
of `kms_enc_tree_bin_set_target_bitrate` computes for a target bitrate:
`new_br` for the kinds that have one, the target itself for VP8, nothing for
the kinds without a case. -/
def apply_native_value (enc_type : EncoderType) (target_bitrate : Int) :
    Option (String × Int) :=
  match enc_type with
  | .VAAPIVP8 => some ("bitrate", guint_of_gint (Int.tdiv target_bitrate 500))
  | .VAAPIH264 => some ("bitrate", guint_of_gint (Int.tdiv target_bitrate 500))
  | .VP8 => some ("target-bitrate", target_bitrate)
  | .X264 => some ("bitrate", guint_of_gint (Int.tdiv target_bitrate 1000))
  | .OPENH264 => some ("bitrate", guint_of_gint target_bitrate)
  | .OPUS => none
  | .UNSUPPORTED => none

/-- A registry holding the software H.264 encoder only. -/
def registry_x264 : List GstElementFactory :=
  [{ name := "x264enc", num_pad_templates := 2, src_caps := ["video/x-h264"],
     element_name := "x264enc0", props := [("bitrate", 2048), ("threads", 0), ("pass", 0)] }]

/-- The six instance-name prefixes `kms_enc_tree_bin_set_encoder_type` knows. -/
def known_prefixes : List String :=
  ["vaapiencodevp8", "vaapiencodeh264", "vp8enc", "x264enc", "openh264enc", "opusenc"]

/-- A registry holding a Theora encoder only. -/
def registry_theora : List GstElementFactory :=
  [{ name := "theoraenc", num_pad_templates := 2, src_caps := ["video/x-theora"],
     element_name := "theoraenc0", props := [("bitrate", 0)] }]

/-- Caps asking for Theora video. -/
def caps_theora : GstCaps :=
  { media_type := "video/x-theora", is_audio := false, rate := some "videorate",
    convert := "videoconvert", mediator := "videoscale" }

/-! ## Derived notions of the rank hack -/

/-- The number of factories of the registry whose name starts with
`"openh264"`, the test of line 252. -/
def openh264_named (registry : List GstElementFactory) : Nat :=
  registry.countP (fun f => g_str_has_prefix f.name "openh264")

/-- Instance names follow factory names for the boosted family: a factory whose
instances receive a name starting with `"openh264enc"` has itself a name
starting with `"openh264enc"`. -/
def openh264_instances_named (registry : List GstElementFactory) : Prop :=
  ∀ f ∈ registry, g_str_has_prefix f.element_name "openh264enc" = true →
    g_str_has_prefix f.name "openh264enc" = true

/-- The factory `openh264enc`. -/
def openh264enc_factory : GstElementFactory :=
  { name := "openh264enc", num_pad_templates := 2, src_caps := ["video/x-h264"],
    element_name := "openh264enc0", props := [("bitrate", 128000)] }

/-- A registry holding `openh264enc` only. -/
def registry_openh264 : List GstElementFactory := [openh264enc_factory]

/-- A registry holding one H.264 encoder registered under the factory name
`"ciscoh264enc"`, whose instances receive the default name `"openh264enc0"`. -/
def registry_alias : List GstElementFactory :=
  [{ name := "ciscoh264enc", num_pad_templates := 2, src_caps := ["video/x-h264"],
     element_name := "openh264enc0", props := [("bitrate", 128000)] }]

end Kms

/-! # Theorems -/

namespace Kms

/-! ## Shared lemmas -/

theorem MAX_eq_max (a b : Int) : MAX a b = max a b := by
  unfold MAX
  split <;> omega

theorem MIN_eq_min (a b : Int) : MIN a b = min a b := by
  unfold MIN
  split <;> omega

theorem limit_eq (mn mx x : Int) : KMS_ENC_TREE_BIN_LIMIT mn mx x = max mn (min mx x) := by
  unfold KMS_ENC_TREE_BIN_LIMIT
  rw [MAX_eq_max, MIN_eq_min]

theorem limit_in_range (mn mx x : Int) (h : mn ≤ mx) :
    mn ≤ KMS_ENC_TREE_BIN_LIMIT mn mx x ∧ KMS_ENC_TREE_BIN_LIMIT mn mx x ≤ mx := by
  rw [limit_eq]
  omega

theorem apply_vaapi_frame (self s' : KmsEncTreeBin) (t : Int) (h : apply_vaapi self t = some s') :
    s'.min_bitrate = self.min_bitrate ∧ s'.max_bitrate = self.max_bitrate ∧
    s'.remb_bitrate = self.remb_bitrate ∧ s'.tag_bitrate = self.tag_bitrate ∧
    s'.enc_type = self.enc_type ∧ s'.current_bitrate = self.current_bitrate ∧
    s'.width ≠ none := by
  unfold apply_vaapi at h
  simp only [enc_set] at h
  split at h
  · exact absurd h (by simp)
  · rename_i w hw
    split at h
    · simp only [Option.some.injEq] at h
      subst h
      split_ifs <;> simp
    · simp only [Option.some.injEq] at h
      subst h
      refine ⟨?_, ?_, ?_, ?_, ?_, ?_, ?_⟩ <;> first | (split_ifs <;> rfl) | (rw [hw]; simp)

theorem get_bitrate_fst (self : KmsEncTreeBin) :
    (kms_enc_tree_bin_get_bitrate self).1 = fused_bitrate self := by
  unfold kms_enc_tree_bin_get_bitrate fused_bitrate
  simp only
  split <;> rfl

theorem get_bitrate_snd (self : KmsEncTreeBin) :
    (kms_enc_tree_bin_get_bitrate self).2 = { self with current_bitrate := fused_bitrate self } := by
  unfold kms_enc_tree_bin_get_bitrate fused_bitrate
  simp only
  split <;> rfl

theorem set_target_frame (self s' : KmsEncTreeBin)
    (h : kms_enc_tree_bin_set_target_bitrate self = some s') :
    s'.min_bitrate = self.min_bitrate ∧ s'.max_bitrate = self.max_bitrate ∧
    s'.remb_bitrate = self.remb_bitrate ∧ s'.tag_bitrate = self.tag_bitrate ∧
    s'.enc_type = self.enc_type ∧ s'.current_bitrate = fused_bitrate self ∧
    (self.width ≠ none → s'.width ≠ none) := by
  unfold kms_enc_tree_bin_set_target_bitrate at h
  simp only [get_bitrate_fst, get_bitrate_snd] at h
  split at h
  · simp only [Option.some.injEq] at h
    subst h
    simp
  · split at h
    · have := apply_vaapi_frame _ _ _ h
      simp only at this
      simp [this]
    · have := apply_vaapi_frame _ _ _ h
      simp only at this
      simp [this]
    · split at h <;>
        (simp only [Option.some.injEq] at h; subst h; simp [enc_set])
    · split at h <;>
        (simp only [Option.some.injEq] at h; subst h; simp [enc_set])
    · simp only [Option.some.injEq] at h
      subst h
      simp only [report_unsupported]
      split <;> simp [enc_set]
    · simp only [Option.some.injEq] at h
      subst h
      simp [report_unsupported]
    · simp only [Option.some.injEq] at h
      subst h
      simp [report_unsupported]

theorem apply_vaapi_total (self : KmsEncTreeBin) (t : Int) (hw : self.width ≠ none) :
    ∃ s', apply_vaapi self t = some s' := by
  unfold apply_vaapi
  simp only [enc_set]
  split
  · rename_i h
    exfalso
    apply hw
    rw [← h]
    split_ifs <;> rfl
  · split <;> exact ⟨_, rfl⟩

theorem set_target_total (self : KmsEncTreeBin)
    (hw : is_vaapi self.enc_type = true → self.width ≠ none) :
    ∃ s', kms_enc_tree_bin_set_target_bitrate self = some s' := by
  unfold kms_enc_tree_bin_set_target_bitrate
  simp only [get_bitrate_fst, get_bitrate_snd]
  split
  · exact ⟨_, rfl⟩
  · split
    · rename_i ht
      exact apply_vaapi_total _ _ (hw (by simp [is_vaapi, ht]))
    · rename_i ht
      exact apply_vaapi_total _ _ (hw (by simp [is_vaapi, ht]))
    · split <;> exact ⟨_, rfl⟩
    · split <;> exact ⟨_, rfl⟩
    · exact ⟨_, rfl⟩
    · exact ⟨_, rfl⟩
    · exact ⟨_, rfl⟩

theorem fusion_candidate_congr (a b : KmsEncTreeBin)
    (h1 : a.min_bitrate = b.min_bitrate) (h2 : a.max_bitrate = b.max_bitrate)
    (h3 : a.remb_bitrate = b.remb_bitrate) (h4 : a.tag_bitrate = b.tag_bitrate) :
    fusion_candidate a = fusion_candidate b := by
  unfold fusion_candidate
  rw [h1, h2, h3, h4]

theorem fusion_candidate_in_range (self : KmsEncTreeBin)
    (h : self.min_bitrate ≤ self.max_bitrate) :
    self.min_bitrate ≤ fusion_candidate self ∧ fusion_candidate self ≤ self.max_bitrate := by
  unfold fusion_candidate
  split
  · exact limit_in_range _ _ _ h
  · split <;> exact limit_in_range _ _ _ h

theorem set_target_post (s1 s' : KmsEncTreeBin)
    (h : kms_enc_tree_bin_set_target_bitrate s1 = some s')
    (hw : is_vaapi s1.enc_type = true → s1.width ≠ none)
    (hb : s1.min_bitrate ≤ s1.max_bitrate) :
    reach_inv s' ∧
    (in_bounds s' ∨ (fusion_candidate s' ≤ 0 ∧ s'.current_bitrate = s1.current_bitrate)) := by
  obtain ⟨f1, f2, f3, f4, f5, f6, f7⟩ := set_target_frame s1 s' h
  have hc : fusion_candidate s' = fusion_candidate s1 := fusion_candidate_congr _ _ f1 f2 f3 f4
  have hr := fusion_candidate_in_range s1 hb
  have key : in_bounds s' ∨ (fusion_candidate s' ≤ 0 ∧ s'.current_bitrate = s1.current_bitrate) := by
    by_cases hpos : fusion_candidate s1 ≤ 0
    · right
      refine ⟨by omega, ?_⟩
      rw [f6]
      unfold fused_bitrate
      rw [if_pos hpos]
    · left
      unfold in_bounds
      rw [f6, f1, f2]
      unfold fused_bitrate
      rw [if_neg hpos]
      exact hr
  refine ⟨⟨?_, by omega, ?_⟩, key⟩
  · intro hv
    rw [f5] at hv
    exact f7 (hw hv)
  · rcases key with k | k
    · exact Or.inl k
    · exact Or.inr k.1

theorem step_post (s : KmsEncTreeBin) (e : Event) (hs : reach_inv s) (he : e.bounds_ordered) :
    ∃ s', step s e = some s' ∧ reach_inv s' ∧
      (in_bounds s' ∨ (fusion_candidate s' ≤ 0 ∧ s'.current_bitrate = s.current_bitrate)) := by
  obtain ⟨hw, hb, hi⟩ := hs
  cases e with
  | remote_estimate bitrate =>
    simp only [step, bitrate_callback]
    split
    · obtain ⟨s', h'⟩ := set_target_total
        { s with remb_bitrate := gint_of_guint bitrate } hw
      exact ⟨s', h', set_target_post { s with remb_bitrate := gint_of_guint bitrate } s' h' hw hb⟩
    · refine ⟨s, rfl, ⟨hw, hb, hi⟩, ?_⟩
      rcases hi with k | k
      · exact Or.inl k
      · exact Or.inr ⟨k, rfl⟩
  | source_hint bitrate =>
    simp only [step, tag_event_probe]
    obtain ⟨s', h'⟩ := set_target_total
      { s with tag_bitrate := gint_of_guint bitrate } hw
    exact ⟨s', h', set_target_post { s with tag_bitrate := gint_of_guint bitrate } s' h' hw hb⟩
  | set_limits mn mx =>
    simp only [step, kms_enc_tree_bin_set_bitrate_limits]
    obtain ⟨s', h'⟩ := set_target_total
      { s with max_bitrate := mx, min_bitrate := mn } hw
    exact ⟨s', h',
      set_target_post { s with max_bitrate := mx, min_bitrate := mn } s' h' hw he⟩

theorem run_post (events : List Event) (s : KmsEncTreeBin) (hs : reach_inv s)
    (he : ∀ e ∈ events, e.bounds_ordered) :
    ∃ s', run events s = some s' ∧ reach_inv s' := by
  induction events generalizing s with
  | nil => exact ⟨s, rfl, hs⟩
  | cons e es ih =>
    obtain ⟨s1, h1, i1, _⟩ := step_post s e hs (he e (List.mem_cons_self _ _))
    obtain ⟨s2, h2, i2⟩ := ih s1 i1 (fun x hx => he x (List.mem_cons_of_mem _ hx))
    refine ⟨s2, ?_, i2⟩
    simp only [run, h1]
    exact h2

theorem new_post (registry : List GstElementFactory) (caps : GstCaps)
    (target mn mx : Int) (cfg : Option (List (String × ConfigField))) (s0 : KmsEncTreeBin)
    (h : kms_enc_tree_bin_new registry caps target mn mx cfg = some (some s0)) :
    s0.current_bitrate = KMS_ENC_TREE_BIN_LIMIT mn mx target ∧
    s0.min_bitrate = mn ∧ s0.max_bitrate = mx ∧
    s0.remb_bitrate = -1 ∧ s0.tag_bitrate = -1 ∧ s0.log = [] ∧
    (is_vaapi s0.enc_type = true → s0.width = some "320" ∧ s0.height = some "180") := by
  unfold kms_enc_tree_bin_new kms_enc_tree_bin_configure at h
  simp only at h
  split at h
  · exact absurd h (by simp)
  · exact absurd h (by simp)
  · simp only [Option.some.injEq] at h
    subst h
    refine ⟨rfl, rfl, rfl, rfl, rfl, rfl, ?_⟩
    intro hv
    simp only at hv
    simp [hv]

theorem lookup_props_set (l : List (String × Int)) (k : String) (v : Int) :
    (props_set l k v).lookup k = some v := by
  induction l with
  | nil => simp [props_set, List.lookup]
  | cons p rest ih =>
    obtain ⟨a, w⟩ := p
    unfold props_set
    split
    · rename_i h
      subst h
      simp [List.lookup]
    · rename_i h
      have h2 : (k == a) = false := by
        simp only [beq_eq_false_iff_ne, ne_eq]
        exact fun e => h e.symm
      simp [List.lookup, h2, ih]

theorem get_set_same (e : GstElement) (k : String) (v : Int) :
    g_object_get (g_object_set e k v) k = v := by
  unfold g_object_get g_object_set
  simp only [lookup_props_set]

theorem new_pushes_append (s1 s2 : KmsEncTreeBin) (l : List Effect)
    (h : s2.log = s1.log ++ l) : new_pushes s1 s2 = l.filter Effect.is_push := by
  unfold new_pushes new_effects
  rw [h, List.drop_left]

theorem new_pushes_self (s : KmsEncTreeBin) : new_pushes s s = [] := by
  rw [new_pushes_append s s [] (by simp)]
  rfl

theorem fused_bitrate_after (s s1 : KmsEncTreeBin)
    (h : kms_enc_tree_bin_set_target_bitrate s = some s1) :
    fused_bitrate s1 = s1.current_bitrate ∧ s1.current_bitrate = fused_bitrate s := by
  obtain ⟨f1, f2, f3, f4, _, f6, _⟩ := set_target_frame s s1 h
  have hc : fusion_candidate s1 = fusion_candidate s := fusion_candidate_congr _ _ f1 f2 f3 f4
  refine ⟨?_, f6⟩
  unfold fused_bitrate
  rw [hc]
  split
  · rfl
  · rw [f6]
    unfold fused_bitrate
    rw [if_neg (by assumption)]

theorem get_bitrate_snd_stable (s : KmsEncTreeBin) (h : fused_bitrate s = s.current_bitrate) :
    (kms_enc_tree_bin_get_bitrate s).2 = s := by
  rw [get_bitrate_snd, h]

theorem apply_vaapi_sync (a s1 : KmsEncTreeBin) (t : Int) (h : apply_vaapi a t = some s1) :
    g_object_get s1.enc "bitrate" = guint_of_gint (Int.tdiv t 500) ∧
    s1.width = some (vaapi_resolution t).1 := by
  unfold apply_vaapi at h
  simp only at h
  split at h
  · exact absurd h (by simp)
  · rename_i w hw
    have hbr : g_object_get
        (if g_object_get a.enc "bitrate" ≠ guint_of_gint (Int.tdiv t 500)
          then enc_set a "bitrate" (guint_of_gint (Int.tdiv t 500)) else a).enc "bitrate"
        = guint_of_gint (Int.tdiv t 500) := by
      split
      · simp only [enc_set, get_set_same]
      · rename_i hne
        simpa using hne
    split at h
    · simp only [Option.some.injEq] at h
      subst h
      exact ⟨hbr, rfl⟩
    · rename_i heq
      simp only [Option.some.injEq] at h
      subst h
      refine ⟨hbr, ?_⟩
      rw [hw]
      simp only [ne_eq, Decidable.not_not] at heq
      rw [heq]

theorem set_target_sync (s s1 : KmsEncTreeBin)
    (h : kms_enc_tree_bin_set_target_bitrate s = some s1) (hpos : 0 < fused_bitrate s) :
    in_sync s1 (fused_bitrate s) := by
  have hty := (set_target_frame s s1 h).2.2.2.2.1
  unfold kms_enc_tree_bin_set_target_bitrate at h
  simp only [get_bitrate_fst, get_bitrate_snd] at h
  rw [if_neg (by omega)] at h
  unfold in_sync
  split at h
  · rename_i ht
    rw [hty, ht]
    exact apply_vaapi_sync _ _ _ h
  · rename_i ht
    rw [hty, ht]
    exact apply_vaapi_sync _ _ _ h
  · rename_i ht
    rw [hty, ht]
    split at h
    · simp only [Option.some.injEq] at h
      subst h
      simp only [enc_set, get_set_same]
    · rename_i hne
      simp only [Option.some.injEq] at h
      subst h
      simpa using hne
  · rename_i ht
    rw [hty, ht]
    split at h
    · simp only [Option.some.injEq] at h
      subst h
      simp only [enc_set, get_set_same]
    · rename_i hne
      simp only [Option.some.injEq] at h
      subst h
      simpa using hne
  · rename_i ht
    rw [hty, ht]
    simp only [Option.some.injEq] at h
    subst h
    simp only [report_unsupported]
    split
    · simp only [enc_set, get_set_same]
    · rename_i hne
      simpa using hne
  · rename_i ht
    rw [hty, ht]
    trivial
  · rename_i ht
    rw [hty, ht]
    trivial

theorem set_target_of_sync (s1 : KmsEncTreeBin)
    (hf : fused_bitrate s1 = s1.current_bitrate)
    (hs : in_sync s1 s1.current_bitrate) :
    ∃ s2, kms_enc_tree_bin_set_target_bitrate s1 = some s2 ∧ new_pushes s1 s2 = [] ∧
      (s2 = s1 ∨ s2 = report_unsupported s1) := by
  unfold kms_enc_tree_bin_set_target_bitrate
  simp only [get_bitrate_fst, get_bitrate_snd_stable s1 hf, hf]
  split
  · exact ⟨s1, rfl, new_pushes_self s1, Or.inl rfl⟩
  · unfold in_sync at hs
    split
    · rename_i ht
      rw [ht] at hs
      refine ⟨s1, ?_, new_pushes_self s1, Or.inl rfl⟩
      unfold apply_vaapi
      simp only [hs.1, ne_eq, not_true_eq_false, if_false, hs.2]
    · rename_i ht
      rw [ht] at hs
      refine ⟨s1, ?_, new_pushes_self s1, Or.inl rfl⟩
      unfold apply_vaapi
      simp only [hs.1, ne_eq, not_true_eq_false, if_false, hs.2]
    · rename_i ht
      rw [ht] at hs
      simp only at hs
      refine ⟨s1, ?_, new_pushes_self s1, Or.inl rfl⟩
      simp only [hs, ne_eq, not_true_eq_false, if_false]
    · rename_i ht
      rw [ht] at hs
      simp only at hs
      refine ⟨s1, ?_, new_pushes_self s1, Or.inl rfl⟩
      simp only [hs, ne_eq, not_true_eq_false, if_false]
    · rename_i ht
      rw [ht] at hs
      simp only at hs
      refine ⟨report_unsupported s1, ?_, ?_, Or.inr rfl⟩
      · simp only [hs, ne_eq, not_true_eq_false, if_false]
      · rw [new_pushes_append s1 (report_unsupported s1) _ rfl]
        rfl
    · refine ⟨report_unsupported s1, rfl, ?_, Or.inr rfl⟩
      rw [new_pushes_append s1 (report_unsupported s1) _ rfl]
      rfl
    · refine ⟨report_unsupported s1, rfl, ?_, Or.inr rfl⟩
      rw [new_pushes_append s1 (report_unsupported s1) _ rfl]
      rfl

theorem set_target_of_nonpos (s : KmsEncTreeBin) (hf : fused_bitrate s = s.current_bitrate)
    (h0 : s.current_bitrate ≤ 0) : kms_enc_tree_bin_set_target_bitrate s = some s := by
  unfold kms_enc_tree_bin_set_target_bitrate
  simp only [get_bitrate_fst, get_bitrate_snd_stable s hf, hf]
  rw [if_pos h0]

theorem vaapi_resolution_cases (b : Int) :
    (4000000 ≤ b ∧ vaapi_resolution b = ("1920", "1080")) ∨
    (2750000 < b ∧ b < 4000000 ∧ vaapi_resolution b = ("1600", "900")) ∨
    (1500000 < b ∧ b ≤ 2750000 ∧ vaapi_resolution b = ("1280", "720")) ∨
    (1250000 < b ∧ b ≤ 1500000 ∧ vaapi_resolution b = ("960", "540")) ∨
    (1000000 < b ∧ b ≤ 1250000 ∧ vaapi_resolution b = ("800", "450")) ∨
    (800000 < b ∧ b ≤ 1000000 ∧ vaapi_resolution b = ("640", "360")) ∨
    (400000 < b ∧ b ≤ 800000 ∧ vaapi_resolution b = ("480", "270")) ∨
    (b ≤ 400000 ∧ vaapi_resolution b = ("320", "180")) := by
  unfold vaapi_resolution
  split_ifs with h1 h2 h3 h4 h5 h6 h7
  · exact Or.inl ⟨h1, rfl⟩
  · exact Or.inr (Or.inl ⟨h2, by omega, rfl⟩)
  · exact Or.inr (Or.inr (Or.inl ⟨h3, by omega, rfl⟩))
  · exact Or.inr (Or.inr (Or.inr (Or.inl ⟨h4, by omega, rfl⟩)))
  · exact Or.inr (Or.inr (Or.inr (Or.inr (Or.inl ⟨h5, by omega, rfl⟩))))
  · exact Or.inr (Or.inr (Or.inr (Or.inr (Or.inr (Or.inl ⟨h6, by omega, rfl⟩)))))
  · exact Or.inr (Or.inr (Or.inr (Or.inr (Or.inr (Or.inr (Or.inl ⟨h7, by omega, rfl⟩))))))
  · exact Or.inr (Or.inr (Or.inr (Or.inr (Or.inr (Or.inr (Or.inr ⟨by omega, rfl⟩))))))

theorem table_step_eq (b : Int) :
    table_step b =
      if 4000000 ≤ b then some ("1920", "1080") else if 2750000 ≤ b then some ("1600", "900")
      else if 1500000 ≤ b then some ("1280", "720") else if 1250000 ≤ b then some ("960", "540")
      else if 1000000 ≤ b then some ("800", "450") else if 800000 ≤ b then some ("640", "360")
      else if 400000 ≤ b then some ("480", "270") else if 0 ≤ b then some ("320", "180")
      else none := by
  simp only [table_step, resolution_table, List.foldl]

theorem table_step_agrees (b : Int) (h0 : 0 < b)
    (hb : b ≠ 400000 ∧ b ≠ 800000 ∧ b ≠ 1000000 ∧ b ≠ 1250000 ∧ b ≠ 1500000 ∧ b ≠ 2750000) :
    table_step b = some (vaapi_resolution b) := by
  rw [table_step_eq]
  rcases vaapi_resolution_cases b with ⟨_, hr⟩ | ⟨_, _, hr⟩ | ⟨_, _, hr⟩ | ⟨_, _, hr⟩ |
      ⟨_, _, hr⟩ | ⟨_, _, hr⟩ | ⟨_, _, hr⟩ | ⟨_, hr⟩ <;> rw [hr]
  · have p0 : (4000000 : Int) ≤ b := by omega
    rw [if_pos p0]
  · have n0 : ¬ (4000000 : Int) ≤ b := by omega
    have p1 : (2750000 : Int) ≤ b := by omega
    rw [if_neg n0, if_pos p1]
  · have n0 : ¬ (4000000 : Int) ≤ b := by omega
    have n1 : ¬ (2750000 : Int) ≤ b := by omega
    have p2 : (1500000 : Int) ≤ b := by omega
    rw [if_neg n0, if_neg n1, if_pos p2]
  · have n0 : ¬ (4000000 : Int) ≤ b := by omega
    have n1 : ¬ (2750000 : Int) ≤ b := by omega
    have n2 : ¬ (1500000 : Int) ≤ b := by omega
    have p3 : (1250000 : Int) ≤ b := by omega
    rw [if_neg n0, if_neg n1, if_neg n2, if_pos p3]
  · have n0 : ¬ (4000000 : Int) ≤ b := by omega
    have n1 : ¬ (2750000 : Int) ≤ b := by omega
    have n2 : ¬ (1500000 : Int) ≤ b := by omega
    have n3 : ¬ (1250000 : Int) ≤ b := by omega
    have p4 : (1000000 : Int) ≤ b := by omega
    rw [if_neg n0, if_neg n1, if_neg n2, if_neg n3, if_pos p4]
  · have n0 : ¬ (4000000 : Int) ≤ b := by omega
    have n1 : ¬ (2750000 : Int) ≤ b := by omega
    have n2 : ¬ (1500000 : Int) ≤ b := by omega
    have n3 : ¬ (1250000 : Int) ≤ b := by omega
    have n4 : ¬ (1000000 : Int) ≤ b := by omega
    have p5 : (800000 : Int) ≤ b := by omega
    rw [if_neg n0, if_neg n1, if_neg n2, if_neg n3, if_neg n4, if_pos p5]
  · have n0 : ¬ (4000000 : Int) ≤ b := by omega
    have n1 : ¬ (2750000 : Int) ≤ b := by omega
    have n2 : ¬ (1500000 : Int) ≤ b := by omega
    have n3 : ¬ (1250000 : Int) ≤ b := by omega
    have n4 : ¬ (1000000 : Int) ≤ b := by omega
    have n5 : ¬ (800000 : Int) ≤ b := by omega
    have p6 : (400000 : Int) ≤ b := by omega
    rw [if_neg n0, if_neg n1, if_neg n2, if_neg n3, if_neg n4, if_neg n5, if_pos p6]
  · have n0 : ¬ (4000000 : Int) ≤ b := by omega
    have n1 : ¬ (2750000 : Int) ≤ b := by omega
    have n2 : ¬ (1500000 : Int) ≤ b := by omega
    have n3 : ¬ (1250000 : Int) ≤ b := by omega
    have n4 : ¬ (1000000 : Int) ≤ b := by omega
    have n5 : ¬ (800000 : Int) ≤ b := by omega
    have n6 : ¬ (400000 : Int) ≤ b := by omega
    have p7 : (0 : Int) ≤ b := by omega
    rw [if_neg n0, if_neg n1, if_neg n2, if_neg n3, if_neg n4, if_neg n5, if_neg n6, if_pos p7]

theorem vaapi_resolution_width_inj (a b : Int)
    (h : (vaapi_resolution a).1 = (vaapi_resolution b).1) :
    (vaapi_resolution a).2 = (vaapi_resolution b).2 := by
  rcases vaapi_resolution_cases a with ⟨_, ha⟩ | ⟨_, _, ha⟩ | ⟨_, _, ha⟩ | ⟨_, _, ha⟩ |
      ⟨_, _, ha⟩ | ⟨_, _, ha⟩ | ⟨_, _, ha⟩ | ⟨_, ha⟩ <;>
    rcases vaapi_resolution_cases b with ⟨_, hb⟩ | ⟨_, _, hb⟩ | ⟨_, _, hb⟩ | ⟨_, _, hb⟩ |
      ⟨_, _, hb⟩ | ⟨_, _, hb⟩ | ⟨_, _, hb⟩ | ⟨_, hb⟩ <;>
    (rw [ha, hb] at h; rw [ha, hb]; try (exact absurd h (by decide)))

theorem vaapi_resolution_mono (b1 b2 : Int) (h : b1 ≤ b2) :
    dimension_value (vaapi_resolution b1).1 ≤ dimension_value (vaapi_resolution b2).1 ∧
    dimension_value (vaapi_resolution b1).2 ≤ dimension_value (vaapi_resolution b2).2 := by
  rcases vaapi_resolution_cases b1 with ⟨_, ha⟩ | ⟨_, _, ha⟩ | ⟨_, _, ha⟩ | ⟨_, _, ha⟩ |
      ⟨_, _, ha⟩ | ⟨_, _, ha⟩ | ⟨_, _, ha⟩ | ⟨_, ha⟩ <;>
    rcases vaapi_resolution_cases b2 with ⟨_, hb⟩ | ⟨_, _, hb⟩ | ⟨_, _, hb⟩ | ⟨_, _, hb⟩ |
      ⟨_, _, hb⟩ | ⟨_, _, hb⟩ | ⟨_, _, hb⟩ | ⟨_, hb⟩ <;>
    first
    | omega
    | (rw [ha, hb]; decide)

theorem apply_vaapi_tracks (a s1 : KmsEncTreeBin) (t : Int) (h : apply_vaapi a t = some s1)
    (ht : on_table a) :
    s1.width = some (vaapi_resolution t).1 ∧ s1.height = some (vaapi_resolution t).2 := by
  obtain ⟨b, hw, hh⟩ := ht
  unfold apply_vaapi at h
  simp only at h
  have hw' : (if g_object_get a.enc "bitrate" ≠ guint_of_gint (Int.tdiv t 500)
      then enc_set a "bitrate" (guint_of_gint (Int.tdiv t 500)) else a).width
      = some (vaapi_resolution b).1 := by
    split <;> exact hw
  have hh' : (if g_object_get a.enc "bitrate" ≠ guint_of_gint (Int.tdiv t 500)
      then enc_set a "bitrate" (guint_of_gint (Int.tdiv t 500)) else a).height
      = some (vaapi_resolution b).2 := by
    split <;> exact hh
  rw [hw'] at h
  simp only at h
  split at h
  · simp only [Option.some.injEq] at h
    subst h
    exact ⟨rfl, rfl⟩
  · rename_i heq
    simp only [ne_eq, Decidable.not_not] at heq
    simp only [Option.some.injEq] at h
    subst h
    rw [hw', hh', ← heq, vaapi_resolution_width_inj t b heq]
    exact ⟨rfl, rfl⟩

theorem set_target_tracks (s : KmsEncTreeBin) (hv : is_vaapi s.enc_type = true)
    (ht : on_table s) :
    ∃ s', kms_enc_tree_bin_set_target_bitrate s = some s' ∧
      is_vaapi s'.enc_type = true ∧ on_table s' ∧
      (0 < s'.current_bitrate → tracks_bitrate s') := by
  have hw : s.width ≠ none := by
    obtain ⟨b, hb, _⟩ := ht
    rw [hb]
    simp
  obtain ⟨s', h'⟩ := set_target_total s (fun _ => hw)
  obtain ⟨_, _, _, _, f5, f6, _⟩ := set_target_frame s s' h'
  refine ⟨s', h', by rw [f5]; exact hv, ?_⟩
  have h := h'
  unfold kms_enc_tree_bin_set_target_bitrate at h
  simp only [get_bitrate_fst, get_bitrate_snd] at h
  have hta : on_table { s with current_bitrate := fused_bitrate s } := ht
  split at h
  · rename_i hle
    simp only [Option.some.injEq] at h
    subst h
    refine ⟨hta, ?_⟩
    intro hpos
    exfalso
    simp only at hpos
    omega
  · have hap : apply_vaapi { s with current_bitrate := fused_bitrate s } (fused_bitrate s)
        = some s' := by
      simp only [is_vaapi, Bool.or_eq_true, decide_eq_true_eq] at hv
      rcases hv with hv | hv
      · simpa only [hv] using h
      · simpa only [hv] using h
    have htr := apply_vaapi_tracks _ s' _ hap hta
    refine ⟨⟨fused_bitrate s, htr.1, htr.2⟩, ?_⟩
    intro _
    unfold tracks_bitrate
    rw [f6]
    exact htr

theorem step_tracks (s : KmsEncTreeBin) (e : Event) (hv : is_vaapi s.enc_type = true)
    (ht : on_table s) :
    ∃ s', step s e = some s' ∧ is_vaapi s'.enc_type = true ∧ on_table s' ∧
      (e.runs_fusion → 0 < s'.current_bitrate → tracks_bitrate s') := by
  cases e with
  | remote_estimate bitrate =>
    simp only [step, bitrate_callback]
    split
    · obtain ⟨s', h1, h2, h3, h4⟩ :=
        set_target_tracks { s with remb_bitrate := gint_of_guint bitrate } hv ht
      exact ⟨s', h1, h2, h3, fun _ => h4⟩
    · rename_i h0
      refine ⟨s, rfl, hv, ht, ?_⟩
      intro hr
      exact absurd hr h0
  | source_hint bitrate =>
    simp only [step, tag_event_probe]
    obtain ⟨s', h1, h2, h3, h4⟩ :=
      set_target_tracks { s with tag_bitrate := gint_of_guint bitrate } hv ht
    exact ⟨s', h1, h2, h3, fun _ => h4⟩
  | set_limits mn mx =>
    simp only [step, kms_enc_tree_bin_set_bitrate_limits]
    obtain ⟨s', h1, h2, h3, h4⟩ :=
      set_target_tracks { s with max_bitrate := mx, min_bitrate := mn } hv ht
    exact ⟨s', h1, h2, h3, fun _ => h4⟩

theorem run_tracks (events : List Event) (s : KmsEncTreeBin) (hv : is_vaapi s.enc_type = true)
    (ht : on_table s) :
    ∃ s', run events s = some s' ∧ is_vaapi s'.enc_type = true ∧ on_table s' := by
  induction events generalizing s with
  | nil => exact ⟨s, rfl, hv, ht⟩
  | cons e es ih =>
    obtain ⟨s1, h1, v1, t1, _⟩ := step_tracks s e hv ht
    obtain ⟨s2, h2, v2, t2⟩ := ih s1 v1 t1
    refine ⟨s2, ?_, v2, t2⟩
    simp only [run, h1]
    exact h2

theorem tmod_two_ne_zero (x : Int) : Int.tmod x 2 ≠ 0 ↔ x % 2 = 1 := by
  rw [Ne, ← Int.dvd_iff_tmod_eq_zero]
  omega

theorem check_caps_probe_eq (width height : Int) :
    check_caps_probe (.caps width height) =
      if width % 2 = 1 ∨ height % 2 = 1 then
        some (if width % 2 = 1 then width - 1 else width,
              if height % 2 = 1 then height - 1 else height)
      else none := by
  unfold check_caps_probe
  simp only [tmod_two_ne_zero]
  by_cases hw : width % 2 = 1 <;> by_cases hh : height % 2 = 1 <;> simp [hw, hh]

theorem create_encoder_of_nil (registry : List GstElementFactory) (caps : GstCaps)
    (target : Int) (cfg : Option (List (String × ConfigField)))
    (h : capable_candidates registry caps = []) :
    kms_enc_tree_bin_create_encoder_for_caps registry caps target cfg = none := by
  unfold kms_enc_tree_bin_create_encoder_for_caps
  unfold capable_candidates at h
  simp only [h]

theorem create_encoder_of_cons (registry : List GstElementFactory) (caps : GstCaps)
    (target : Int) (cfg : Option (List (String × ConfigField)))
    (first : GstElementFactory) (rest : List GstElementFactory)
    (h : capable_candidates registry caps = first :: rest) :
    kms_enc_tree_bin_create_encoder_for_caps registry caps target cfg
      = some (select_encoder (after_exclusion (first :: rest)) target cfg) := by
  unfold kms_enc_tree_bin_create_encoder_for_caps
  unfold capable_candidates at h
  simp only [h, after_exclusion, select_encoder]
  split <;> rfl

theorem select_encoder_of_first (l pre post : List GstElementFactory) (f : GstElementFactory)
    (target : Int) (cfg : Option (List (String × ConfigField)))
    (hl : l = pre ++ f :: post) (hf : f.num_pad_templates = 2)
    (hpre : ∀ g ∈ pre, g.num_pad_templates ≠ 2) :
    select_encoder l target cfg
      = some (configure_encoder (gst_element_factory_create f)
          (kms_enc_tree_bin_set_encoder_type (gst_element_factory_create f).name) target cfg,
        kms_enc_tree_bin_set_encoder_type (gst_element_factory_create f).name) := by
  have hfind : l.find? (fun f => f.num_pad_templates = 2) = some f := by
    rw [List.find?_eq_some]
    refine ⟨by simp [hf], pre, post, hl, ?_⟩
    intro a ha
    simp [hpre a ha]
  unfold select_encoder
  rw [hfind]

theorem select_encoder_of_none (l : List GstElementFactory)
    (target : Int) (cfg : Option (List (String × ConfigField)))
    (h : ∀ g ∈ l, g.num_pad_templates ≠ 2) : select_encoder l target cfg = none := by
  have hfind : l.find? (fun f => f.num_pad_templates = 2) = none := by
    rw [List.find?_eq_none]
    intro x hx
    simp [h x hx]
  unfold select_encoder
  rw [hfind]

theorem configure_of_create (mn mx : Int) (registry : List GstElementFactory) (caps : GstCaps)
    (target : Int) (cfg : Option (List (String × ConfigField))) :
    (kms_enc_tree_bin_create_encoder_for_caps registry caps target cfg = none →
      kms_enc_tree_bin_configure mn mx registry caps target cfg = none) ∧
    (kms_enc_tree_bin_create_encoder_for_caps registry caps target cfg = some none →
      kms_enc_tree_bin_configure mn mx registry caps target cfg = some none) := by
  unfold kms_enc_tree_bin_configure
  constructor <;> (intro h; rw [h])

theorem augment_of_first (registry pre post : List GstElementFactory) (f : GstElementFactory)
    (hl : registry = pre ++ f :: post) (hf : g_str_has_prefix f.name "openh264" = true)
    (hpre : ∀ g ∈ pre, g_str_has_prefix g.name "openh264" = false) :
    augment_openh264_rank registry = f :: (pre ++ post) := by
  have hfind : registry.find? (fun f => g_str_has_prefix f.name "openh264") = some f := by
    rw [List.find?_eq_some]
    refine ⟨hf, pre, post, hl, ?_⟩
    intro a ha
    simp [hpre a ha]
  have hmem : f ∉ pre := by
    intro hin
    have := hpre f hin
    rw [hf] at this
    exact absurd this (by simp)
  unfold augment_openh264_rank
  rw [hfind]
  simp only [hl, List.erase_append_right _ hmem, List.erase_cons_head]

theorem augment_of_none (registry : List GstElementFactory)
    (h : ∀ g ∈ registry, g_str_has_prefix g.name "openh264" = false) :
    augment_openh264_rank registry = registry := by
  have hfind : registry.find? (fun f => g_str_has_prefix f.name "openh264") = none := by
    rw [List.find?_eq_none]
    intro x hx
    simp [h x hx]
  unfold augment_openh264_rank
  rw [hfind]

theorem select_encoder_mem (l : List GstElementFactory) (target : Int)
    (cfg : Option (List (String × ConfigField))) (g : GstElementFactory)
    (hg : g ∈ l) (hg2 : g.num_pad_templates = 2) :
    ∃ f, f ∈ l ∧ f.num_pad_templates = 2 ∧
      select_encoder l target cfg
        = some (configure_encoder (gst_element_factory_create f)
            (kms_enc_tree_bin_set_encoder_type (gst_element_factory_create f).name) target cfg,
          kms_enc_tree_bin_set_encoder_type (gst_element_factory_create f).name) := by
  cases hfind : l.find? (fun f => f.num_pad_templates = 2) with
  | none =>
    rw [List.find?_eq_none] at hfind
    exact absurd (by simpa using hg2) (hfind g hg)
  | some f =>
    refine ⟨f, List.mem_of_find?_eq_some hfind, by simpa using List.find?_some hfind, ?_⟩
    unfold select_encoder
    rw [hfind]

theorem gint_of_guint_small (v : Nat) (h : v < 2147483648) : gint_of_guint v = (v : Int) := by
  unfold gint_of_guint
  have h1 : v % 4294967296 = v := Nat.mod_eq_of_lt (by omega)
  rw [h1, if_pos h]

theorem lookup_props_set_other (l : List (String × Int)) (k k' : String) (v : Int)
    (h : k ≠ k') : (props_set l k' v).lookup k = l.lookup k := by
  induction l with
  | nil =>
    have h2 : (k == k') = false := by simpa using h
    simp [props_set, List.lookup, h2]
  | cons p rest ih =>
    obtain ⟨a, w⟩ := p
    unfold props_set
    split
    · rename_i ha
      subst ha
      have h2 : (k == a) = false := by simpa using h
      simp [List.lookup, h2]
    · by_cases hka : (k == a) = true
      · simp [List.lookup, hka]
      · simp only [Bool.not_eq_true] at hka
        simp [List.lookup, hka, ih]

theorem get_set_other (e : GstElement) (k k' : String) (v : Int) (h : k ≠ k') :
    g_object_get (g_object_set e k' v) k = g_object_get e k := by
  unfold g_object_get g_object_set
  simp only [lookup_props_set_other _ _ _ _ h]

theorem apply_overrides_get (config : List (String × Option Int)) (names : List String)
    (e : GstElement) (k : String) :
    g_object_get (apply_overrides config names e) k =
      if k ∈ names then
        match config.lookup k with
        | some (some v) => v
        | _ => g_object_get e k
      else g_object_get e k := by
  induction names generalizing e with
  | nil => simp [apply_overrides]
  | cons n ns ih =>
    by_cases hkn : k = n
    · subst hkn
      simp only [List.mem_cons, true_or, if_true]
      unfold apply_overrides
      cases hc : config.lookup k with
      | none => simp only [ih, hc]; split <;> rfl
      | some o =>
        cases o with
        | none => simp only [ih, hc]; split <;> rfl
        | some v =>
          simp only [ih, hc, get_set_same]
          split <;> rfl
    · have hmem : (k ∈ n :: ns) ↔ k ∈ ns := by simp [hkn]
      unfold apply_overrides
      cases hc : config.lookup n with
      | none => simp only [ih, hmem]
      | some o =>
        cases o with
        | none => simp only [ih, hmem]
        | some v => simp only [ih, hmem, get_set_other _ _ _ _ hkn]

theorem configure_encoder_eq (encoder : GstElement) (type : EncoderType) (target : Int)
    (cfg : Option (List (String × ConfigField))) :
    configure_encoder encoder type target cfg
      = set_encoder_configuration (preset_encoder encoder type target) cfg
          (kms_enc_tree_bin_get_name_from_type type) := rfl

theorem overrides_get (encoder : GstElement) (type : EncoderType) (target : Int)
    (cfg : List (String × ConfigField)) (family : String)
    (entry : List (String × Option Int))
    (hn : kms_enc_tree_bin_get_name_from_type type = some family)
    (he : cfg.lookup family = some (.nested entry)) (k : String) :
    g_object_get (configure_encoder encoder type target (some cfg)) k =
      if k ∈ recognized_parameters (preset_encoder encoder type target) then
        match entry.lookup k with
        | some (some v) => v
        | _ => g_object_get (preset_encoder encoder type target) k
      else g_object_get (preset_encoder encoder type target) k := by
  have hcfg : configure_encoder encoder type target (some cfg)
      = apply_overrides entry (recognized_parameters (preset_encoder encoder type target))
          (preset_encoder encoder type target) := by
    rw [configure_encoder_eq, hn]
    unfold set_encoder_configuration
    simp only [he]
    rfl
  rw [hcfg, apply_overrides_get]

theorem new_effects_append (s1 s2 : KmsEncTreeBin) (l : List Effect)
    (h : s2.log = s1.log ++ l) : new_effects s1 s2 = l := by
  unfold new_effects
  rw [h, List.drop_left]

theorem apply_vaapi_effects (a s1 : KmsEncTreeBin) (t : Int) (h : apply_vaapi a t = some s1) :
    ∃ l, s1.log = a.log ++ l ∧
      ∀ e ∈ l, e = Effect.enc_set "bitrate" (guint_of_gint (Int.tdiv t 500)) ∨
        ∃ caps, e = Effect.capsfilter_set caps := by
  have h1 : ∃ l1, (if g_object_get a.enc "bitrate" ≠ guint_of_gint (Int.tdiv t 500)
        then enc_set a "bitrate" (guint_of_gint (Int.tdiv t 500)) else a).log = a.log ++ l1 ∧
      ∀ e ∈ l1, e = Effect.enc_set "bitrate" (guint_of_gint (Int.tdiv t 500)) := by
    split
    · exact ⟨[Effect.enc_set "bitrate" (guint_of_gint (Int.tdiv t 500))], rfl, by simp⟩
    · exact ⟨[], by simp, by simp⟩
  obtain ⟨l1, hl1, hall1⟩ := h1
  unfold apply_vaapi at h
  simp only at h
  split at h
  · exact absurd h (by simp)
  · split at h
    · simp only [Option.some.injEq] at h
      subst h
      refine ⟨l1 ++ [Effect.capsfilter_set (g_strconcat
        ["video/x-raw,width=", (vaapi_resolution t).1, ",height=", (vaapi_resolution t).2])],
        ?_, ?_⟩
      · simp only [hl1, List.append_assoc]
      · intro e he
        simp only [List.mem_append, List.mem_singleton] at he
        rcases he with he | he
        · exact Or.inl (hall1 e he)
        · exact Or.inr ⟨_, he⟩
    · simp only [Option.some.injEq] at h
      subst h
      exact ⟨l1, hl1, fun e he => Or.inl (hall1 e he)⟩

theorem set_target_effects (s s' : KmsEncTreeBin)
    (h : kms_enc_tree_bin_set_target_bitrate s = some s') :
    (∀ p v, Effect.enc_set p v ∈ new_effects s s' →
      apply_native_value s.enc_type (fused_bitrate s) = some (p, v)) ∧
    (unsupported_error ∈ new_effects s s' ↔
      (0 < fused_bitrate s ∧
        (s.enc_type = .OPENH264 ∨ s.enc_type = .OPUS ∨ s.enc_type = .UNSUPPORTED))) := by
  unfold kms_enc_tree_bin_set_target_bitrate at h
  simp only [get_bitrate_fst, get_bitrate_snd] at h
  split at h
  · rename_i hle
    simp only [Option.some.injEq] at h
    subst h
    rw [new_effects_append s _ [] (by simp)]
    refine ⟨by simp, ?_⟩
    constructor
    · intro hm
      exact absurd hm (by simp)
    · intro hm
      omega
  · rename_i hpos
    have hp : 0 < fused_bitrate s := by omega
    split at h
    · rename_i ht
      obtain ⟨l, hl, hall⟩ := apply_vaapi_effects _ _ _ h
      rw [new_effects_append s s' l hl]
      constructor
      · intro p v hm
        rcases hall _ hm with he | ⟨c, he⟩
        · simp only [Effect.enc_set.injEq] at he
          simp [apply_native_value, ht, he.1, he.2]
        · exact absurd he (by simp)
      · constructor
        · intro hm
          rcases hall _ hm with he | ⟨c, he⟩ <;> exact absurd he (by simp [unsupported_error])
        · intro hm
          rcases hm.2 with hk | hk | hk <;> rw [ht] at hk <;> exact absurd hk (by simp)
    · rename_i ht
      obtain ⟨l, hl, hall⟩ := apply_vaapi_effects _ _ _ h
      rw [new_effects_append s s' l hl]
      constructor
      · intro p v hm
        rcases hall _ hm with he | ⟨c, he⟩
        · simp only [Effect.enc_set.injEq] at he
          simp [apply_native_value, ht, he.1, he.2]
        · exact absurd he (by simp)
      · constructor
        · intro hm
          rcases hall _ hm with he | ⟨c, he⟩ <;> exact absurd he (by simp [unsupported_error])
        · intro hm
          rcases hm.2 with hk | hk | hk <;> rw [ht] at hk <;> exact absurd hk (by simp)
    · rename_i ht
      split at h <;> simp only [Option.some.injEq] at h <;> subst h
      · rw [new_effects_append s _ [Effect.enc_set "target-bitrate" (fused_bitrate s)] rfl]
        constructor
        · intro p v hm
          simp only [List.mem_singleton, Effect.enc_set.injEq] at hm
          simp [apply_native_value, ht, hm.1, hm.2]
        · constructor
          · intro hm
            exact absurd hm (by simp [unsupported_error])
          · intro hm
            rcases hm.2 with hk | hk | hk <;> rw [ht] at hk <;> exact absurd hk (by simp)
      · rw [new_effects_append s _ [] (by simp)]
        refine ⟨by simp, ?_⟩
        constructor
        · intro hm
          exact absurd hm (by simp)
        · intro hm
          rcases hm.2 with hk | hk | hk <;> rw [ht] at hk <;> exact absurd hk (by simp)
    · rename_i ht
      split at h <;> simp only [Option.some.injEq] at h <;> subst h
      · rw [new_effects_append s _
          [Effect.enc_set "bitrate" (guint_of_gint (Int.tdiv (fused_bitrate s) 1000))] rfl]
        constructor
        · intro p v hm
          simp only [List.mem_singleton, Effect.enc_set.injEq] at hm
          simp [apply_native_value, ht, hm.1, hm.2]
        · constructor
          · intro hm
            exact absurd hm (by simp [unsupported_error])
          · intro hm
            rcases hm.2 with hk | hk | hk <;> rw [ht] at hk <;> exact absurd hk (by simp)
      · rw [new_effects_append s _ [] (by simp)]
        refine ⟨by simp, ?_⟩
        constructor
        · intro hm
          exact absurd hm (by simp)
        · intro hm
          rcases hm.2 with hk | hk | hk <;> rw [ht] at hk <;> exact absurd hk (by simp)
    · rename_i ht
      simp only [Option.some.injEq] at h
      subst h
      split
      · rw [new_effects_append s _
          [Effect.enc_set "bitrate" (guint_of_gint (fused_bitrate s)), unsupported_error]
          (by simp [report_unsupported, enc_set, unsupported_error])]
        constructor
        · intro p v hm
          simp only [List.mem_cons, List.mem_singleton, List.not_mem_nil, or_false,
            unsupported_error, Effect.enc_set.injEq] at hm
          rcases hm with hm | hm
          · simp [apply_native_value, ht, hm.1, hm.2]
          · exact absurd hm (by simp)
        · exact ⟨fun _ => ⟨hp, Or.inl ht⟩, fun _ => by simp⟩
      · rw [new_effects_append s _ [unsupported_error]
          (by simp [report_unsupported, unsupported_error])]
        constructor
        · intro p v hm
          exact absurd hm (by simp [unsupported_error])
        · exact ⟨fun _ => ⟨hp, Or.inl ht⟩, fun _ => by simp⟩
    · rename_i ht
      simp only [Option.some.injEq] at h
      subst h
      rw [new_effects_append s _ [unsupported_error]
        (by simp [report_unsupported, unsupported_error])]
      constructor
      · intro p v hm
        exact absurd hm (by simp [unsupported_error])
      · exact ⟨fun _ => ⟨hp, Or.inr (Or.inl ht)⟩, fun _ => by simp⟩
    · rename_i ht
      simp only [Option.some.injEq] at h
      subst h
      rw [new_effects_append s _ [unsupported_error]
        (by simp [report_unsupported, unsupported_error])]
      constructor
      · intro p v hm
        exact absurd hm (by simp [unsupported_error])
      · exact ⟨fun _ => ⟨hp, Or.inr (Or.inr ht)⟩, fun _ => by simp⟩
theorem limit_le_max (mn mx x : Int) : KMS_ENC_TREE_BIN_LIMIT mn mx x ≤ max mn mx := by
  rw [limit_eq]
  omega

theorem guint_of_small (x : Int) (h0 : 0 ≤ x) (h1 : x ≤ G_MAXINT) : guint_of_gint x = x := by
  unfold guint_of_gint
  unfold G_MAXINT at h1
  omega

theorem tdiv_small (x : Int) (h0 : 0 ≤ x) (h1 : x ≤ G_MAXINT) :
    guint_of_gint (Int.tdiv x 1000) = Int.tdiv x 1000 := by
  rw [Int.tdiv_eq_ediv h0 (by decide)]
  unfold guint_of_gint
  unfold G_MAXINT at h1
  omega

theorem preset_get_vp8 (e : GstElement) (t : Int) :
    g_object_get (preset_encoder e .VP8 t) "target-bitrate" = t := by
  unfold preset_encoder encoder_presets
  simp only [List.foldl]
  rw [get_set_other _ _ _ _ (by decide), get_set_same]

theorem preset_get_x264 (e : GstElement) (t : Int) :
    g_object_get (preset_encoder e .X264 t) "bitrate" = Int.tdiv t 1000 := by
  unfold preset_encoder encoder_presets
  simp only [List.foldl]
  rw [get_set_other _ _ _ _ (by decide), get_set_other _ _ _ _ (by decide), get_set_same]

theorem preset_get_openh264 (e : GstElement) (t : Int) :
    g_object_get (preset_encoder e .OPENH264 t) "bitrate" = t := by
  unfold preset_encoder encoder_presets
  simp only [List.foldl]
  rw [get_set_same]

theorem mem_augment (l : List GstElementFactory) (g : GstElementFactory)
    (h : g ∈ augment_openh264_rank l) : g ∈ l := by
  unfold augment_openh264_rank at h
  split at h
  · rename_i f hf
    simp only [List.mem_cons] at h
    rcases h with h | h
    · rw [h]
      exact List.mem_of_find?_eq_some hf
    · exact List.mem_of_mem_erase h
  · exact h

theorem mem_after_exclusion (l : List GstElementFactory) (g : GstElementFactory)
    (h : g ∈ after_exclusion l) : g ∈ l := by
  cases l with
  | nil => exact h
  | cons first rest =>
    simp only [after_exclusion] at h
    split at h
    · exact List.mem_cons_of_mem _ h
    · exact h

theorem select_encoder_some (l : List GstElementFactory) (t : Int)
    (cfg : Option (List (String × ConfigField))) (e : GstElement) (ty : EncoderType)
    (h : select_encoder l t cfg = some (e, ty)) :
    ∃ f, f ∈ l ∧ f.num_pad_templates = 2 ∧
      ty = kms_enc_tree_bin_set_encoder_type (gst_element_factory_create f).name ∧
      e = configure_encoder (gst_element_factory_create f) ty t cfg := by
  unfold select_encoder at h
  split at h
  · rename_i f hf
    simp only [Option.some.injEq, Prod.mk.injEq] at h
    refine ⟨f, List.mem_of_find?_eq_some hf, by simpa using List.find?_some hf, h.2.symm, ?_⟩
    rw [← h.1, ← h.2]
  · exact absurd h (by simp)

theorem create_encoder_some (registry : List GstElementFactory) (caps : GstCaps) (t : Int)
    (cfg : Option (List (String × ConfigField))) (e : GstElement) (ty : EncoderType)
    (h : kms_enc_tree_bin_create_encoder_for_caps registry caps t cfg = some (some (e, ty))) :
    ∃ f, f ∈ registry ∧ f ∈ after_exclusion (capable_candidates registry caps) ∧
      f.num_pad_templates = 2 ∧
      ty = kms_enc_tree_bin_set_encoder_type (gst_element_factory_create f).name ∧
      e = configure_encoder (gst_element_factory_create f) ty t cfg := by
  cases hc : capable_candidates registry caps with
  | nil =>
    rw [create_encoder_of_nil registry caps t cfg hc] at h
    exact absurd h (by simp)
  | cons first rest =>
    rw [create_encoder_of_cons registry caps t cfg first rest hc] at h
    simp only [Option.some.injEq] at h
    obtain ⟨f, hf, hf2, hty, he⟩ := select_encoder_some _ t cfg e ty h
    refine ⟨f, ?_, hf, hf2, hty, he⟩
    have h1 : f ∈ capable_candidates registry caps := by
      rw [hc]
      exact mem_after_exclusion _ f hf
    unfold capable_candidates gst_element_factory_list_filter at h1
    exact mem_augment registry f (List.mem_filter.mp h1).1

theorem new_enc (registry : List GstElementFactory) (caps : GstCaps)
    (target mn mx : Int) (cfg : Option (List (String × ConfigField))) (s0 : KmsEncTreeBin)
    (h : kms_enc_tree_bin_new registry caps target mn mx cfg = some (some s0)) :
    ∃ f, f ∈ registry ∧ f ∈ after_exclusion (capable_candidates registry caps) ∧
      f.num_pad_templates = 2 ∧
      s0.enc_type = kms_enc_tree_bin_set_encoder_type (gst_element_factory_create f).name ∧
      s0.enc = configure_encoder (gst_element_factory_create f) s0.enc_type
        s0.current_bitrate cfg := by
  unfold kms_enc_tree_bin_new kms_enc_tree_bin_configure at h
  simp only at h
  split at h
  · exact absurd h (by simp)
  · exact absurd h (by simp)
  · rename_i e ty hc
    simp only [Option.some.injEq] at h
    subst h
    exact create_encoder_some registry caps _ cfg e ty hc

theorem set_encoder_type_unsupported (name : String) :
    kms_enc_tree_bin_set_encoder_type name = .UNSUPPORTED ↔
      ∀ p ∈ known_prefixes, g_str_has_prefix name p = false := by
  unfold kms_enc_tree_bin_set_encoder_type known_prefixes
  constructor
  · intro h
    split at h
    · exact absurd h (by simp)
    · split at h
      · exact absurd h (by simp)
      · split at h
        · exact absurd h (by simp)
        · split at h
          · exact absurd h (by simp)
          · split at h
            · exact absurd h (by simp)
            · split at h
              · exact absurd h (by simp)
              · intro p hp
                simp only [List.mem_cons, List.mem_singleton, List.not_mem_nil, or_false] at hp
                simp only [Bool.not_eq_true] at *
                rcases hp with hp | hp | hp | hp | hp | hp <;> subst hp <;> assumption
  · intro h
    rw [if_neg (by rw [h _ (by simp)]; simp), if_neg (by rw [h _ (by simp)]; simp),
      if_neg (by rw [h _ (by simp)]; simp), if_neg (by rw [h _ (by simp)]; simp),
      if_neg (by rw [h _ (by simp)]; simp), if_neg (by rw [h _ (by simp)]; simp)]

theorem apply_overrides_name (config : List (String × Option Int)) (names : List String)
    (e : GstElement) : (apply_overrides config names e).name = e.name := by
  induction names generalizing e with
  | nil => rfl
  | cons n ns ih =>
    unfold apply_overrides
    split
    · rw [ih]
      rfl
    · exact ih e
    · exact ih e

theorem presets_name (l : List (String × Int)) (e : GstElement) :
    (l.foldl (fun e kv => g_object_set e kv.1 kv.2) e).name = e.name := by
  induction l generalizing e with
  | nil => rfl
  | cons kv rest ih =>
    simp only [List.foldl]
    rw [ih]
    rfl

theorem configure_encoder_name (e : GstElement) (type : EncoderType) (target : Int)
    (cfg : Option (List (String × ConfigField))) :
    (configure_encoder e type target cfg).name = e.name := by
  rw [configure_encoder_eq]
  have hp : (preset_encoder e type target).name = e.name := presets_name _ e
  unfold set_encoder_configuration
  split
  · split
    · rw [apply_overrides_name]
      exact hp
    · exact hp
  · exact hp

theorem gint_of_guint_large (v : Nat) (h1 : 2147483648 ≤ v) (h2 : v < 4294967296) :
    gint_of_guint v = (v : Int) - 4294967296 := by
  unfold gint_of_guint
  have h3 : v % 4294967296 = v := Nat.mod_eq_of_lt h2
  rw [h3, if_neg (by omega)]

theorem fused_of_unknown_remb (s : KmsEncTreeBin) (h : s.remb_bitrate ≤ 0) :
    fused_bitrate s =
      if 0 < KMS_ENC_TREE_BIN_LIMIT s.min_bitrate s.max_bitrate s.tag_bitrate then
        KMS_ENC_TREE_BIN_LIMIT s.min_bitrate s.max_bitrate s.tag_bitrate
      else s.current_bitrate := by
  unfold fused_bitrate fusion_candidate
  rw [if_pos h]
  split <;> split <;> first | rfl | omega

theorem fused_of_unknown_tag (s : KmsEncTreeBin) (h : s.tag_bitrate < 0) :
    fused_bitrate s =
      if 0 < KMS_ENC_TREE_BIN_LIMIT s.min_bitrate s.max_bitrate s.remb_bitrate then
        KMS_ENC_TREE_BIN_LIMIT s.min_bitrate s.max_bitrate s.remb_bitrate
      else s.current_bitrate := by
  unfold fused_bitrate fusion_candidate
  by_cases hr : s.remb_bitrate ≤ 0
  · rw [if_pos hr]
    simp only [limit_eq]
    split <;> split <;> omega
  · have ht : s.tag_bitrate ≤ 0 := by omega
    simp only [if_neg hr, if_pos ht]
    split <;> split <;> first | rfl | omega

theorem openh264enc_starts_openh264 (n : String) (h : g_str_has_prefix n "openh264enc" = true) :
    g_str_has_prefix n "openh264" = true := by
  unfold g_str_has_prefix at *
  rw [List.isPrefixOf_iff_prefix] at *
  exact List.IsPrefix.trans (by decide) h

theorem not_openh264enc (n : String) (h : g_str_has_prefix n "openh264" = false) :
    g_str_has_prefix n "openh264enc" = false := by
  cases hc : g_str_has_prefix n "openh264enc"
  · rfl
  · rw [openh264enc_starts_openh264 n hc] at h
    cases h

theorem find_split {α : Type} (p : α → Bool) (l : List α) (f : α) (h : l.find? p = some f) :
    ∃ pre post, l = pre ++ f :: post ∧ p f = true ∧ ∀ g ∈ pre, p g = false := by
  induction l with
  | nil => simp at h
  | cons a t ih =>
    by_cases ha : p a = true
    · rw [List.find?_cons_of_pos _ ha] at h
      cases h
      exact ⟨[], t, rfl, ha, by simp⟩
    · rw [List.find?_cons_of_neg _ ha] at h
      obtain ⟨pre, post, h1, h2, h3⟩ := ih h
      refine ⟨a :: pre, post, by rw [h1]; rfl, h2, ?_⟩
      intro g hg
      rcases List.mem_cons.mp hg with rfl | hg
      · simpa using ha
      · exact h3 g hg

theorem exclusion_drops_openh264enc (registry : List GstElementFactory) (caps : GstCaps)
    (h : openh264_named registry ≤ 1) :
    ∀ f ∈ after_exclusion (capable_candidates registry caps),
      g_str_has_prefix f.name "openh264enc" = false := by
  intro f hf
  unfold capable_candidates at hf
  cases hfind : registry.find? (fun f => g_str_has_prefix f.name "openh264") with
  | none =>
    have hall : ∀ g ∈ registry, g_str_has_prefix g.name "openh264" = false := by
      intro g hg
      have := List.find?_eq_none.mp hfind g hg
      simpa using this
    rw [augment_of_none registry hall] at hf
    have hm := mem_after_exclusion _ f hf
    unfold gst_element_factory_list_filter at hm
    exact not_openh264enc _ (hall f (List.mem_filter.mp hm).1)
  | some f0 =>
    obtain ⟨pre, post, hl, hp, hpre⟩ := find_split _ registry f0 hfind
    have hpost : ∀ g ∈ post, g_str_has_prefix g.name "openh264" = false := by
      unfold openh264_named at h
      have h1 : (f0 :: post).countP (fun f => g_str_has_prefix f.name "openh264")
          = post.countP (fun f => g_str_has_prefix f.name "openh264") + 1 :=
        List.countP_cons_of_pos _ _ hp
      rw [hl, List.countP_append, h1] at h
      have h0 : post.countP (fun f => g_str_has_prefix f.name "openh264") = 0 := by omega
      rw [List.countP_eq_zero] at h0
      intro g hg
      simpa using h0 g hg
    have htail : ∀ g ∈ gst_element_factory_list_filter (pre ++ post) caps,
        g_str_has_prefix g.name "openh264enc" = false := by
      intro g hg
      unfold gst_element_factory_list_filter at hg
      rcases List.mem_append.mp (List.mem_filter.mp hg).1 with hg1 | hg1
      · exact not_openh264enc _ (hpre g hg1)
      · exact not_openh264enc _ (hpost g hg1)
    rw [augment_of_first registry pre post f0 hl hp hpre] at hf
    by_cases hcap : f0.src_caps.contains caps.media_type = true
    · have hc : gst_element_factory_list_filter (f0 :: (pre ++ post)) caps
          = f0 :: gst_element_factory_list_filter (pre ++ post) caps := by
        unfold gst_element_factory_list_filter
        simp only [List.filter_cons, hcap, if_true]
      rw [hc] at hf
      by_cases hx : g_str_has_prefix f0.name "openh264enc" = true
      · have he : after_exclusion (f0 :: gst_element_factory_list_filter (pre ++ post) caps)
            = gst_element_factory_list_filter (pre ++ post) caps := by
          show (if g_str_has_prefix f0.name "openh264enc" = true then _ else _) = _
          rw [if_pos hx]
        rw [he] at hf
        exact htail f hf
      · have hm := mem_after_exclusion _ f hf
        rcases List.mem_cons.mp hm with rfl | hm
        · simpa using hx
        · exact htail f hm
    · have hc : gst_element_factory_list_filter (f0 :: (pre ++ post)) caps
          = gst_element_factory_list_filter (pre ++ post) caps := by
        unfold gst_element_factory_list_filter
        simp only [List.filter_cons, hcap]
        rfl
      rw [hc] at hf
      exact htail f (mem_after_exclusion _ f hf)

theorem augment_perm (registry : List GstElementFactory) :
    (augment_openh264_rank registry).Perm registry := by
  unfold augment_openh264_rank
  cases hfind : registry.find? (fun f => g_str_has_prefix f.name "openh264") with
  | none => exact List.Perm.refl _
  | some f0 => exact (List.perm_cons_erase (List.mem_of_find?_eq_some hfind)).symm

theorem capable_of_only (registry : List GstElementFactory) (caps : GstCaps)
    (f : GstElementFactory) (h : gst_element_factory_list_filter registry caps = [f]) :
    capable_candidates registry caps = [f] := by
  unfold capable_candidates
  unfold gst_element_factory_list_filter at *
  have hp := (augment_perm registry).filter (fun f => f.src_caps.contains caps.media_type)
  rw [h] at hp
  exact List.perm_singleton.mp hp

theorem set_encoder_type_openh264 (name : String)
    (h : kms_enc_tree_bin_set_encoder_type name = .OPENH264) :
    g_str_has_prefix name "openh264enc" = true := by
  unfold kms_enc_tree_bin_set_encoder_type at h
  split at h
  · cases h
  · split at h
    · cases h
    · split at h
      · cases h
      · split at h
        · cases h
        · split at h
          · assumption
          · split at h <;> cases h

theorem table_step_below_eq (b : Int) :
    table_step_below b =
      if 4000000 < b then some ("1920", "1080") else if 2750000 < b then some ("1600", "900")
      else if 1500000 < b then some ("1280", "720") else if 1250000 < b then some ("960", "540")
      else if 1000000 < b then some ("800", "450") else if 800000 < b then some ("640", "360")
      else if 400000 < b then some ("480", "270") else if 0 < b then some ("320", "180")
      else none := by
  simp only [table_step_below, resolution_table, List.foldl]

theorem table_step_below_agrees (b : Int) (h0 : 0 < b) (hb : b ≠ 4000000) :
    table_step_below b = some (vaapi_resolution b) := by
  rw [table_step_below_eq]
  rcases vaapi_resolution_cases b with ⟨_, hr⟩ | ⟨_, _, hr⟩ | ⟨_, _, hr⟩ | ⟨_, _, hr⟩ |
      ⟨_, _, hr⟩ | ⟨_, _, hr⟩ | ⟨_, _, hr⟩ | ⟨_, hr⟩ <;> rw [hr]
  · have q0 : (4000000 : Int) < b := by omega
    rw [if_pos q0]
  · have m0 : ¬ (4000000 : Int) < b := by omega
    have q1 : (2750000 : Int) < b := by omega
    rw [if_neg m0, if_pos q1]
  · have m0 : ¬ (4000000 : Int) < b := by omega
    have m1 : ¬ (2750000 : Int) < b := by omega
    have q2 : (1500000 : Int) < b := by omega
    rw [if_neg m0, if_neg m1, if_pos q2]
  · have m0 : ¬ (4000000 : Int) < b := by omega
    have m1 : ¬ (2750000 : Int) < b := by omega
    have m2 : ¬ (1500000 : Int) < b := by omega
    have q3 : (1250000 : Int) < b := by omega
    rw [if_neg m0, if_neg m1, if_neg m2, if_pos q3]
  · have m0 : ¬ (4000000 : Int) < b := by omega
    have m1 : ¬ (2750000 : Int) < b := by omega
    have m2 : ¬ (1500000 : Int) < b := by omega
    have m3 : ¬ (1250000 : Int) < b := by omega
    have q4 : (1000000 : Int) < b := by omega
    rw [if_neg m0, if_neg m1, if_neg m2, if_neg m3, if_pos q4]
  · have m0 : ¬ (4000000 : Int) < b := by omega
    have m1 : ¬ (2750000 : Int) < b := by omega
    have m2 : ¬ (1500000 : Int) < b := by omega
    have m3 : ¬ (1250000 : Int) < b := by omega
    have m4 : ¬ (1000000 : Int) < b := by omega
    have q5 : (800000 : Int) < b := by omega
    rw [if_neg m0, if_neg m1, if_neg m2, if_neg m3, if_neg m4, if_pos q5]
  · have m0 : ¬ (4000000 : Int) < b := by omega
    have m1 : ¬ (2750000 : Int) < b := by omega
    have m2 : ¬ (1500000 : Int) < b := by omega
    have m3 : ¬ (1250000 : Int) < b := by omega
    have m4 : ¬ (1000000 : Int) < b := by omega
    have m5 : ¬ (800000 : Int) < b := by omega
    have q6 : (400000 : Int) < b := by omega
    rw [if_neg m0, if_neg m1, if_neg m2, if_neg m3, if_neg m4, if_neg m5, if_pos q6]
  · have m0 : ¬ (4000000 : Int) < b := by omega
    have m1 : ¬ (2750000 : Int) < b := by omega
    have m2 : ¬ (1500000 : Int) < b := by omega
    have m3 : ¬ (1250000 : Int) < b := by omega
    have m4 : ¬ (1000000 : Int) < b := by omega
    have m5 : ¬ (800000 : Int) < b := by omega
    have m6 : ¬ (400000 : Int) < b := by omega
    rw [if_neg m0, if_neg m1, if_neg m2, if_neg m3, if_neg m4, if_neg m5, if_neg m6, if_pos h0]

/-! ## C1 -/

/-- C1 (as stated, refuted): with a remote estimate of 500000, no source hint
and bounds [0, 0], `kms_enc_tree_bin_get_bitrate` returns and keeps the previous
`current_bitrate` 300000, not clamp(remoteEstimate), which is 0. -/
theorem C1_counterexample :
    0 < (sample_vp8 500000 (-1) 300000 0 0).remb_bitrate ∧
    (sample_vp8 500000 (-1) 300000 0 0).tag_bitrate ≤ 0 ∧
    max (sample_vp8 500000 (-1) 300000 0 0).min_bitrate
      (min (sample_vp8 500000 (-1) 300000 0 0).max_bitrate
        (sample_vp8 500000 (-1) 300000 0 0).remb_bitrate) = 0 ∧
    (kms_enc_tree_bin_get_bitrate (sample_vp8 500000 (-1) 300000 0 0)).1 = 300000 ∧
    (kms_enc_tree_bin_get_bitrate (sample_vp8 500000 (-1) 300000 0 0)).2.current_bitrate
      = 300000 := by
  decide

/-- C1 (amended): write clamp(x) = max(minBitrate, min(maxBitrate, x)) and let the
candidate be clamp(remoteEstimate) when remoteEstimate > 0 and sourceHint <= 0,
clamp(sourceHint) when remoteEstimate <= 0 and sourceHint > 0, and
clamp(min(remoteEstimate, sourceHint)) when both are > 0. Whenever the candidate
is > 0, `kms_enc_tree_bin_get_bitrate` returns it and stores it as
`current_bitrate`; whenever it is <= 0 the previous `current_bitrate` is
returned and the branch is left unchanged. -/
theorem C1_fused_target (self : KmsEncTreeBin) :
    (0 < self.remb_bitrate → self.tag_bitrate ≤ 0 →
      (0 < max self.min_bitrate (min self.max_bitrate self.remb_bitrate) →
        (kms_enc_tree_bin_get_bitrate self).1
            = max self.min_bitrate (min self.max_bitrate self.remb_bitrate) ∧
        (kms_enc_tree_bin_get_bitrate self).2.current_bitrate
            = max self.min_bitrate (min self.max_bitrate self.remb_bitrate)) ∧
      (max self.min_bitrate (min self.max_bitrate self.remb_bitrate) ≤ 0 →
        kms_enc_tree_bin_get_bitrate self = (self.current_bitrate, self))) ∧
    (self.remb_bitrate ≤ 0 → 0 < self.tag_bitrate →
      (0 < max self.min_bitrate (min self.max_bitrate self.tag_bitrate) →
        (kms_enc_tree_bin_get_bitrate self).1
            = max self.min_bitrate (min self.max_bitrate self.tag_bitrate) ∧
        (kms_enc_tree_bin_get_bitrate self).2.current_bitrate
            = max self.min_bitrate (min self.max_bitrate self.tag_bitrate)) ∧
      (max self.min_bitrate (min self.max_bitrate self.tag_bitrate) ≤ 0 →
        kms_enc_tree_bin_get_bitrate self = (self.current_bitrate, self))) ∧
    (0 < self.remb_bitrate → 0 < self.tag_bitrate →
      (0 < max self.min_bitrate
            (min self.max_bitrate (min self.remb_bitrate self.tag_bitrate)) →
        (kms_enc_tree_bin_get_bitrate self).1
            = max self.min_bitrate
                (min self.max_bitrate (min self.remb_bitrate self.tag_bitrate)) ∧
        (kms_enc_tree_bin_get_bitrate self).2.current_bitrate
            = max self.min_bitrate
                (min self.max_bitrate (min self.remb_bitrate self.tag_bitrate))) ∧
      (max self.min_bitrate
          (min self.max_bitrate (min self.remb_bitrate self.tag_bitrate)) ≤ 0 →
        kms_enc_tree_bin_get_bitrate self = (self.current_bitrate, self))) := by
  refine ⟨?_, ?_, ?_⟩
  · intro h1 h2
    have hc : fusion_candidate self
        = max self.min_bitrate (min self.max_bitrate self.remb_bitrate) := by
      unfold fusion_candidate
      rw [if_neg (by omega), if_pos h2, limit_eq]
    constructor
    · intro h3
      unfold kms_enc_tree_bin_get_bitrate
      simp only [hc]
      rw [if_neg (by omega)]
      exact ⟨rfl, rfl⟩
    · intro h3
      unfold kms_enc_tree_bin_get_bitrate
      simp only [hc]
      rw [if_pos h3]
  · intro h1 h2
    have hc : fusion_candidate self
        = max self.min_bitrate (min self.max_bitrate self.tag_bitrate) := by
      unfold fusion_candidate
      rw [if_pos h1, limit_eq]
    constructor
    · intro h3
      unfold kms_enc_tree_bin_get_bitrate
      simp only [hc]
      rw [if_neg (by omega)]
      exact ⟨rfl, rfl⟩
    · intro h3
      unfold kms_enc_tree_bin_get_bitrate
      simp only [hc]
      rw [if_pos h3]
  · intro h1 h2
    have hc : fusion_candidate self
        = max self.min_bitrate
            (min self.max_bitrate (min self.remb_bitrate self.tag_bitrate)) := by
      unfold fusion_candidate
      rw [if_neg (by omega), if_neg (by omega), limit_eq, MIN_eq_min]
    constructor
    · intro h3
      unfold kms_enc_tree_bin_get_bitrate
      simp only [hc]
      rw [if_neg (by omega)]
      exact ⟨rfl, rfl⟩
    · intro h3
      unfold kms_enc_tree_bin_get_bitrate
      simp only [hc]
      rw [if_pos h3]

/-- C1 (amended), at concrete branches: remote estimate 500000 alone, source
hint 400000 alone, and both together, with bounds [300000, 2000000]. -/
theorem C1_fused_target_witness :
    ((kms_enc_tree_bin_get_bitrate (sample_vp8 500000 (-1) 300000 300000 2000000)).1 = 500000 ∧
      (kms_enc_tree_bin_get_bitrate
        (sample_vp8 500000 (-1) 300000 300000 2000000)).2.current_bitrate = 500000) ∧
    ((kms_enc_tree_bin_get_bitrate (sample_vp8 (-1) 400000 300000 300000 2000000)).1 = 400000 ∧
      (kms_enc_tree_bin_get_bitrate
        (sample_vp8 (-1) 400000 300000 300000 2000000)).2.current_bitrate = 400000) ∧
    ((kms_enc_tree_bin_get_bitrate (sample_vp8 500000 400000 300000 300000 2000000)).1 = 400000 ∧
      (kms_enc_tree_bin_get_bitrate
        (sample_vp8 500000 400000 300000 300000 2000000)).2.current_bitrate = 400000) :=
  ⟨((C1_fused_target (sample_vp8 500000 (-1) 300000 300000 2000000)).1
      (by decide) (by decide)).1 (by decide),
   ((C1_fused_target (sample_vp8 (-1) 400000 300000 300000 2000000)).2.1
      (by decide) (by decide)).1 (by decide),
   ((C1_fused_target (sample_vp8 500000 400000 300000 300000 2000000)).2.2
      (by decide) (by decide)).1 (by decide)⟩

/-! ## C2 -/

/-- C2 (as stated, refuted): with minBitrate = 100000 and maxBitrate = 50000 the
clamp of 70000 is 100000, which is above maxBitrate, so it is outside
[minBitrate, maxBitrate]. -/
theorem C2_counterexample :
    KMS_ENC_TREE_BIN_LIMIT 100000 50000 70000 = 100000 ∧
    ¬ (100000 ≤ KMS_ENC_TREE_BIN_LIMIT 100000 50000 70000 ∧
        KMS_ENC_TREE_BIN_LIMIT 100000 50000 70000 ≤ 50000) := by
  decide

/-- C2 (amended): `KMS_ENC_TREE_BIN_LIMIT` computes max(minBitrate,
min(maxBitrate, x)); for every x with minBitrate <= x <= maxBitrate the clamp
of x is x; and whenever minBitrate <= maxBitrate the clamp of every x lies in
[minBitrate, maxBitrate]. -/
theorem C2_clamp (min_bitrate max_bitrate : Int) :
    (∀ x, KMS_ENC_TREE_BIN_LIMIT min_bitrate max_bitrate x
        = max min_bitrate (min max_bitrate x)) ∧
    (∀ x, min_bitrate ≤ x → x ≤ max_bitrate →
        KMS_ENC_TREE_BIN_LIMIT min_bitrate max_bitrate x = x) ∧
    (min_bitrate ≤ max_bitrate →
      ∀ x, min_bitrate ≤ KMS_ENC_TREE_BIN_LIMIT min_bitrate max_bitrate x ∧
        KMS_ENC_TREE_BIN_LIMIT min_bitrate max_bitrate x ≤ max_bitrate) := by
  refine ⟨fun x => limit_eq _ _ x, ?_, ?_⟩
  · intro x h1 h2
    rw [limit_eq]
    omega
  · intro h x
    exact limit_in_range _ _ x h

/-- C2 (amended), at bounds [300000, 2000000]: 500000 is kept, and 2500000 is
brought into the interval. -/
theorem C2_clamp_witness :
    KMS_ENC_TREE_BIN_LIMIT 300000 2000000 500000 = 500000 ∧
    (300000 ≤ KMS_ENC_TREE_BIN_LIMIT 300000 2000000 2500000 ∧
      KMS_ENC_TREE_BIN_LIMIT 300000 2000000 2500000 ≤ 2000000) :=
  ⟨(C2_clamp 300000 2000000).2.1 500000 (by decide) (by decide),
   (C2_clamp 300000 2000000).2.2 (by decide) 2500000⟩

/-! ## C3 -/

/-- C3 (as stated, refuted): a VP8 branch built with target 500000 and bounds
[0, 1000000] and given the limits [700000, 1000000] and then [0, 600000], with
no feedback event at all, ends with `current_bitrate` 700000: above the
maximum 600000, and different from the initial clamped target 500000. -/
theorem C3_counterexample :
    (construct_and_run registry_vp8 caps_vp8 500000 0 1000000 none
        [.set_limits 700000 1000000, .set_limits 0 600000]).map
      KmsEncTreeBin.current_bitrate = some 700000 ∧
    (construct_and_run registry_vp8 caps_vp8 500000 0 1000000 none
        [.set_limits 700000 1000000, .set_limits 0 600000]).map
      KmsEncTreeBin.min_bitrate = some 0 ∧
    (construct_and_run registry_vp8 caps_vp8 500000 0 1000000 none
        [.set_limits 700000 1000000, .set_limits 0 600000]).map
      KmsEncTreeBin.max_bitrate = some 600000 ∧
    KMS_ENC_TREE_BIN_LIMIT 0 1000000 500000 = 500000 := by
  decide

/-- C3 (amended): let a branch be returned by `kms_enc_tree_bin_new (target, min,
max)` with min <= max. Its `current_bitrate` is the clamped target and lies in
[min, max]. Every sequence of remote-estimate, source-hint and set-limits events
whose bounds pairs satisfy min <= max runs to a state in which either
minBitrate <= currentBitrate <= maxBitrate or the clamped fusion candidate is
<= 0; and every further such event leads to a state that is within its bounds
or has a candidate <= 0 and the `current_bitrate` it had before the event. -/
theorem C3_reachable_invariant (registry : List GstElementFactory) (caps : GstCaps)
    (target mn mx : Int) (cfg : Option (List (String × ConfigField))) (s0 : KmsEncTreeBin)
    (hb : mn ≤ mx)
    (h0 : kms_enc_tree_bin_new registry caps target mn mx cfg = some (some s0)) :
    (s0.current_bitrate = KMS_ENC_TREE_BIN_LIMIT mn mx target ∧ in_bounds s0) ∧
    ∀ events : List Event, (∀ e ∈ events, e.bounds_ordered) →
      ∃ s, run events s0 = some s ∧
        s.min_bitrate ≤ s.max_bitrate ∧
        (in_bounds s ∨ fusion_candidate s ≤ 0) ∧
        ∀ e : Event, e.bounds_ordered →
          ∃ s', step s e = some s' ∧
            (in_bounds s' ∨
              (fusion_candidate s' ≤ 0 ∧ s'.current_bitrate = s.current_bitrate)) := by
  obtain ⟨n1, n2, n3, _, _, _, n7⟩ := new_post registry caps target mn mx cfg s0 h0
  have hin : in_bounds s0 := by
    unfold in_bounds
    rw [n1, n2, n3]
    exact limit_in_range mn mx target hb
  have hinv : reach_inv s0 := by
    refine ⟨?_, by omega, Or.inl hin⟩
    intro hv
    rw [(n7 hv).1]
    simp
  refine ⟨⟨n1, hin⟩, ?_⟩
  intro events hev
  obtain ⟨s, hs, hi⟩ := run_post events s0 hinv hev
  refine ⟨s, hs, hi.2.1, hi.2.2, ?_⟩
  intro e he
  obtain ⟨s', h', _, k⟩ := step_post s e hi he
  exact ⟨s', h', k⟩

/-- C3 (amended), at the VP8 branch built with target 500000 and bounds
[0, 1000000], followed by the limits [700000, 1000000] and [0, 600000]. -/
theorem C3_reachable_invariant_witness :
    ((0 : Int) ≤ 1000000 ∧
      kms_enc_tree_bin_new registry_vp8 caps_vp8 500000 0 1000000 none
        = some (some (branch_vp8 500000 0 1000000))) ∧
    ((branch_vp8 500000 0 1000000).current_bitrate = KMS_ENC_TREE_BIN_LIMIT 0 1000000 500000 ∧
      in_bounds (branch_vp8 500000 0 1000000)) ∧
    ∃ s, run [.set_limits 700000 1000000, .set_limits 0 600000] (branch_vp8 500000 0 1000000)
          = some s ∧
      s.min_bitrate ≤ s.max_bitrate ∧
      (in_bounds s ∨ fusion_candidate s ≤ 0) ∧
      ∀ e : Event, e.bounds_ordered →
        ∃ s', step s e = some s' ∧
          (in_bounds s' ∨
            (fusion_candidate s' ≤ 0 ∧ s'.current_bitrate = s.current_bitrate)) :=
  ⟨⟨by decide, by decide⟩,
   (C3_reachable_invariant registry_vp8 caps_vp8 500000 0 1000000 none
      (branch_vp8 500000 0 1000000) (by decide) (by decide)).1,
   (C3_reachable_invariant registry_vp8 caps_vp8 500000 0 1000000 none
      (branch_vp8 500000 0 1000000) (by decide) (by decide)).2
      [.set_limits 700000 1000000, .set_limits 0 600000]
      (by
        intro e he
        simp only [List.mem_cons, List.mem_singleton, List.not_mem_nil, or_false] at he
        rcases he with h | h <;> (subst h; simp [Event.bounds_ordered]))⟩

/-! ## C4 -/

/-- C4 (as stated, refuted): the hardware H.264 branch just built with target
500000 and bounds [0, 1000000] has a clamped candidate of 0, yet
`kms_enc_tree_bin_set_target_bitrate` pushes the reused bitrate: it writes
`bitrate` 1000 to the encoder and 480x270 to the resolution filter. -/
theorem C4_counterexample :
    kms_enc_tree_bin_new registry_h264 caps_h264 500000 0 1000000 none
      = some (some (branch_h264 500000 0 1000000)) ∧
    fusion_candidate (branch_h264 500000 0 1000000) = 0 ∧
    (kms_enc_tree_bin_set_target_bitrate (branch_h264 500000 0 1000000)).map
        KmsEncTreeBin.current_bitrate = some 500000 ∧
    (kms_enc_tree_bin_set_target_bitrate (branch_h264 500000 0 1000000)).map
        (new_pushes (branch_h264 500000 0 1000000))
      = some [Effect.enc_set "bitrate" 1000,
              Effect.capsfilter_set "video/x-raw,width=480,height=270"] := by
  decide

/-- C4 (amended): for every branch state in which the clamped fusion candidate
is <= 0, `kms_enc_tree_bin_set_target_bitrate` reuses `current_bitrate`: a run
that returns leaves `current_bitrate` unchanged; when `current_bitrate` <= 0 the
run returns the branch untouched (nothing is pushed); and when the encoder
parameter and the stored width already correspond to `current_bitrate`, the run
returns and writes neither a bitrate parameter nor dimensions. -/
theorem C4_candidate_not_positive (self : KmsEncTreeBin) (hc : fusion_candidate self ≤ 0) :
    (∀ s', kms_enc_tree_bin_set_target_bitrate self = some s' →
      s'.current_bitrate = self.current_bitrate) ∧
    (self.current_bitrate ≤ 0 → kms_enc_tree_bin_set_target_bitrate self = some self) ∧
    (in_sync self self.current_bitrate →
      ∃ s', kms_enc_tree_bin_set_target_bitrate self = some s' ∧
        s'.current_bitrate = self.current_bitrate ∧ new_pushes self s' = []) := by
  have hf : fused_bitrate self = self.current_bitrate := by
    unfold fused_bitrate
    rw [if_pos hc]
  refine ⟨?_, ?_, ?_⟩
  · intro s' h
    rw [(set_target_frame self s' h).2.2.2.2.2.1, hf]
  · intro h0
    exact set_target_of_nonpos self hf h0
  · intro hs
    obtain ⟨s2, h2, hp, hk⟩ := set_target_of_sync self hf hs
    refine ⟨s2, h2, ?_, hp⟩
    rcases hk with k | k <;> (subst k; rfl)

/-- C4 (amended), at a VP8 branch with no signal, bounds [0, 1000000] and an
encoder already set to the current 500000. -/
theorem C4_candidate_not_positive_witness :
    fusion_candidate (sample_vp8 (-1) (-1) 500000 0 1000000) ≤ 0 ∧
    kms_enc_tree_bin_set_target_bitrate (sample_vp8 (-1) (-1) 0 0 1000000)
      = some (sample_vp8 (-1) (-1) 0 0 1000000) ∧
    ∃ s', kms_enc_tree_bin_set_target_bitrate (sample_vp8 (-1) (-1) 500000 0 1000000) = some s' ∧
      s'.current_bitrate = (sample_vp8 (-1) (-1) 500000 0 1000000).current_bitrate ∧
      new_pushes (sample_vp8 (-1) (-1) 500000 0 1000000) s' = [] :=
  ⟨by decide,
   (C4_candidate_not_positive (sample_vp8 (-1) (-1) 0 0 1000000) (by decide)).2.1 (by decide),
   (C4_candidate_not_positive (sample_vp8 (-1) (-1) 500000 0 1000000) (by decide)).2.2
     (by
       show Int.tdiv (g_object_get (sample_vp8 (-1) (-1) 500000 0 1000000).enc "target-bitrate")
         1000 = Int.tdiv 500000 1000
       decide)⟩

/-! ## C5 -/

/-- C5: for every branch state, `bitrate_callback` with a remote estimate of 0
returns the branch exactly as it was: both signals, `current_bitrate`, the
bounds, the stored width and height, the encoder and the log of pushes are
unchanged, so fusion is not run and nothing is written. -/
theorem C5_zero_estimate_ignored (self : KmsEncTreeBin) :
    bitrate_callback self 0 = some self ∧
    ∀ s', bitrate_callback self 0 = some s' →
      s'.remb_bitrate = self.remb_bitrate ∧ s'.tag_bitrate = self.tag_bitrate ∧
      s'.current_bitrate = self.current_bitrate ∧
      s'.min_bitrate = self.min_bitrate ∧ s'.max_bitrate = self.max_bitrate ∧
      s'.width = self.width ∧ s'.height = self.height ∧
      s'.enc = self.enc ∧ new_effects self s' = [] := by
  have h : bitrate_callback self 0 = some self := by
    unfold bitrate_callback
    simp
  refine ⟨h, ?_⟩
  intro s' hs
  rw [h] at hs
  simp only [Option.some.injEq] at hs
  subst hs
  refine ⟨rfl, rfl, rfl, rfl, rfl, rfl, rfl, rfl, ?_⟩
  unfold new_effects
  simp

/-! ## C6 -/

/-- C6: for every encoder kind and every branch state, when
`kms_enc_tree_bin_set_target_bitrate` has run and is run again with no event in
between, the second run returns, writes no bitrate parameter to the encoder and
no dimensions to the resolution filter, and leaves the encoder, the stored
resolution and `current_bitrate` as the first run left them. -/
theorem C6_apply_idempotent (self s1 : KmsEncTreeBin)
    (h : kms_enc_tree_bin_set_target_bitrate self = some s1) :
    ∃ s2, kms_enc_tree_bin_set_target_bitrate s1 = some s2 ∧
      new_pushes s1 s2 = [] ∧
      s2.enc = s1.enc ∧ s2.capsfilter = s1.capsfilter ∧
      s2.width = s1.width ∧ s2.height = s1.height ∧
      s2.current_bitrate = s1.current_bitrate := by
  obtain ⟨hf, hcur⟩ := fused_bitrate_after self s1 h
  by_cases hpos : 0 < fused_bitrate self
  · have hs : in_sync s1 s1.current_bitrate := by
      rw [hcur]
      exact set_target_sync self s1 h hpos
    obtain ⟨s2, h2, hp, hk⟩ := set_target_of_sync s1 hf hs
    refine ⟨s2, h2, hp, ?_⟩
    rcases hk with k | k <;> (subst k; exact ⟨rfl, rfl, rfl, rfl, rfl⟩)
  · exact ⟨s1, set_target_of_nonpos s1 hf (by omega), new_pushes_self s1,
      rfl, rfl, rfl, rfl, rfl⟩

/-- C6, at the hardware H.264 branch just built with target 500000 and bounds
[0, 1000000]: the first run pushes 1000 and 480x270, the second run nothing. -/
theorem C6_apply_idempotent_witness :
    kms_enc_tree_bin_set_target_bitrate (branch_h264 500000 0 1000000)
      = some branch_h264_applied ∧
    ∃ s2, kms_enc_tree_bin_set_target_bitrate branch_h264_applied = some s2 ∧
      new_pushes branch_h264_applied s2 = [] :=
  ⟨by decide,
   (C6_apply_idempotent (branch_h264 500000 0 1000000) _ (by decide)).imp
     (fun _ hx => ⟨hx.1, hx.2.1⟩)⟩

/-! ## C7 -/

/-- C7 (as stated, refuted): at each of the bounds 400000, 800000, 1000000,
1250000, 1500000 and 2750000 the `if` chain of
`kms_enc_tree_bin_set_target_bitrate` selects the step below the one whose lower
bound is the greatest bound <= `current_bitrate`; a hardware branch given the
remote estimate 400000 ends at 320x180 and not at 480x270. -/
theorem C7_counterexample :
    (vaapi_resolution 400000 = ("320", "180") ∧ table_step 400000 = some ("480", "270")) ∧
    (vaapi_resolution 800000 = ("480", "270") ∧ table_step 800000 = some ("640", "360")) ∧
    (vaapi_resolution 1000000 = ("640", "360") ∧ table_step 1000000 = some ("800", "450")) ∧
    (vaapi_resolution 1250000 = ("800", "450") ∧ table_step 1250000 = some ("960", "540")) ∧
    (vaapi_resolution 1500000 = ("960", "540") ∧ table_step 1500000 = some ("1280", "720")) ∧
    (vaapi_resolution 2750000 = ("1280", "720") ∧
      table_step 2750000 = some ("1600", "900")) ∧
    ((construct_and_run registry_h264 caps_h264 300000 0 2147483647 none
        [.remote_estimate 400000]).map KmsEncTreeBin.current_bitrate = some 400000 ∧
      (construct_and_run registry_h264 caps_h264 300000 0 2147483647 none
        [.remote_estimate 400000]).map KmsEncTreeBin.width = some (some "320") ∧
      (construct_and_run registry_h264 caps_h264 300000 0 2147483647 none
        [.remote_estimate 400000]).map KmsEncTreeBin.height = some (some "180")) :=
  ⟨by decide, by decide, by decide, by decide, by decide, by decide, by decide⟩

/-- C7 (amended): for every `current_bitrate` > 0 other than 4000000 the `if`
chain selects the step of the table whose lower bound is the greatest bound
strictly below `current_bitrate`, so a bitrate equal to one of the bounds
400000, 800000, 1000000, 1250000, 1500000, 2750000 selects the step that ends
at it; from 4000000 on, that bound included, it selects 1920x1080, the step
whose lower bound is the greatest bound <= `current_bitrate`; and for every
bitrate that is none of the six bounds the two readings select the same step. -/
theorem C7_resolution_step (b : Int) (h0 : 0 < b) :
    (b ≠ 4000000 → table_step_below b = some (vaapi_resolution b)) ∧
    (4000000 ≤ b →
      vaapi_resolution b = ("1920", "1080") ∧ table_step b = some (vaapi_resolution b)) ∧
    (b ≠ 400000 ∧ b ≠ 800000 ∧ b ≠ 1000000 ∧ b ≠ 1250000 ∧ b ≠ 1500000 ∧ b ≠ 2750000 →
      table_step b = some (vaapi_resolution b)) ∧
    (b = 400000 ∨ b = 800000 ∨ b = 1000000 ∨ b = 1250000 ∨ b = 1500000 ∨ b = 2750000 →
      table_step b ≠ some (vaapi_resolution b)) := by
  refine ⟨table_step_below_agrees b h0, ?_, table_step_agrees b h0, ?_⟩
  · intro h4
    refine ⟨?_, table_step_agrees b h0 (by omega)⟩
    rcases vaapi_resolution_cases b with ⟨_, hr⟩ | ⟨_, _, _⟩ | ⟨_, _, _⟩ | ⟨_, _, _⟩ |
        ⟨_, _, _⟩ | ⟨_, _, _⟩ | ⟨_, _, _⟩ | ⟨_, _⟩
    · exact hr
    all_goals omega
  · intro hb
    rcases hb with hb | hb | hb | hb | hb | hb <;> subst hb <;> decide

/-- C7 (amended), at the bound 400000, where the chain selects 320x180, at
500000, where it selects 480x270, and at 4000000, where it selects 1920x1080. -/
theorem C7_resolution_step_witness :
    ((0 : Int) < 400000 ∧ (400000 : Int) ≠ 4000000 ∧
      table_step_below 400000 = some (vaapi_resolution 400000) ∧
      vaapi_resolution 400000 = ("320", "180")) ∧
    (table_step_below 500000 = some (vaapi_resolution 500000) ∧
      vaapi_resolution 500000 = ("480", "270")) ∧
    (vaapi_resolution 4000000 = ("1920", "1080") ∧
      table_step 4000000 = some (vaapi_resolution 4000000)) :=
  ⟨⟨by decide, by decide, (C7_resolution_step 400000 (by decide)).1 (by decide), by decide⟩,
   ⟨(C7_resolution_step 500000 (by decide)).1 (by decide), by decide⟩,
   (C7_resolution_step 4000000 (by decide)).2.1 (by decide)⟩

/-! ## C8 -/

/-- C8: for every pair of bitrates b1 <= b2, the width and the height selected
for b2, read as numbers, are each at least the width and the height selected
for b1. -/
theorem C8_resolution_monotonic (b1 b2 : Int) (h : b1 ≤ b2) :
    dimension_value (vaapi_resolution b1).1 ≤ dimension_value (vaapi_resolution b2).1 ∧
    dimension_value (vaapi_resolution b1).2 ≤ dimension_value (vaapi_resolution b2).2 :=
  vaapi_resolution_mono b1 b2 h

/-- C8, at the bitrates 500000 (480x270) and 1600000 (1280x720). -/
theorem C8_resolution_monotonic_witness :
    ((500000 : Int) ≤ 1600000 ∧
      dimension_value (vaapi_resolution 500000).1 = 480 ∧
      dimension_value (vaapi_resolution 1600000).1 = 1280) ∧
    (dimension_value (vaapi_resolution 500000).1 ≤ dimension_value (vaapi_resolution 1600000).1 ∧
      dimension_value (vaapi_resolution 500000).2
        ≤ dimension_value (vaapi_resolution 1600000).2) :=
  ⟨by decide, C8_resolution_monotonic 500000 1600000 (by decide)⟩

/-! ## C9 -/

/-- C9: a branch returned by `kms_enc_tree_bin_new` whose kind is VAAPIVP8 or
VAAPIH264 starts at 320x180 whatever the target; every sequence of events runs
to a state from which `kms_enc_tree_bin_set_target_bitrate`, and every event,
returns a state whose stored width and height, whenever the run had a positive
target, are both the step the `if` chain selects for the new `current_bitrate`. -/
theorem C9_resolution_tracks_bitrate (registry : List GstElementFactory) (caps : GstCaps)
    (target mn mx : Int) (cfg : Option (List (String × ConfigField))) (s0 : KmsEncTreeBin)
    (h0 : kms_enc_tree_bin_new registry caps target mn mx cfg = some (some s0))
    (hv : is_vaapi s0.enc_type = true) :
    (s0.width = some "320" ∧ s0.height = some "180") ∧
    ∀ events : List Event,
      ∃ s, run events s0 = some s ∧
        (∃ s', kms_enc_tree_bin_set_target_bitrate s = some s' ∧
          (0 < s'.current_bitrate → tracks_bitrate s')) ∧
        ∀ e : Event, ∃ s', step s e = some s' ∧
          (e.runs_fusion → 0 < s'.current_bitrate → tracks_bitrate s') := by
  have hn := (new_post registry caps target mn mx cfg s0 h0).2.2.2.2.2.2 hv
  refine ⟨hn, ?_⟩
  have ht0 : on_table s0 := ⟨0, by rw [hn.1]; rfl, by rw [hn.2]; rfl⟩
  intro events
  obtain ⟨s, hs, v, t⟩ := run_tracks events s0 hv ht0
  refine ⟨s, hs, ?_, ?_⟩
  · obtain ⟨s', h1, _, _, h4⟩ := set_target_tracks s v t
    exact ⟨s', h1, h4⟩
  · intro e
    obtain ⟨s', h1, _, _, h4⟩ := step_tracks s e v t
    exact ⟨s', h1, h4⟩

/-- C9, at the hardware H.264 branch built with bounds [300000, 2000000]: it
starts at 320x180, and the remote estimate 500000 with no source hint gives
`current_bitrate` 500000 and the step 480x270. -/
theorem C9_resolution_tracks_bitrate_witness :
    (kms_enc_tree_bin_new registry_h264 caps_h264 300000 300000 2000000 none
        = some (some (branch_h264 300000 300000 2000000)) ∧
      is_vaapi (branch_h264 300000 300000 2000000).enc_type = true) ∧
    ((branch_h264 300000 300000 2000000).width = some "320" ∧
      (branch_h264 300000 300000 2000000).height = some "180") ∧
    ((step (branch_h264 300000 300000 2000000) (.remote_estimate 500000)).map
        KmsEncTreeBin.current_bitrate = some 500000 ∧
      (step (branch_h264 300000 300000 2000000) (.remote_estimate 500000)).map
        KmsEncTreeBin.width = some (some "480") ∧
      (step (branch_h264 300000 300000 2000000) (.remote_estimate 500000)).map
        KmsEncTreeBin.height = some (some "270")) ∧
    ∃ s', step (branch_h264 300000 300000 2000000) (.remote_estimate 500000) = some s' ∧
      (Event.runs_fusion (.remote_estimate 500000) → 0 < s'.current_bitrate →
        tracks_bitrate s') :=
  ⟨by decide,
   (C9_resolution_tracks_bitrate registry_h264 caps_h264 300000 300000 2000000 none
      (branch_h264 300000 300000 2000000) (by decide) (by decide)).1,
   by decide,
   by
     obtain ⟨s, hs, _, hstep⟩ :=
       (C9_resolution_tracks_bitrate registry_h264 caps_h264 300000 300000 2000000 none
         (branch_h264 300000 300000 2000000) (by decide) (by decide)).2 []
     have hs' : branch_h264 300000 300000 2000000 = s := Option.some.inj hs
     rw [hs']
     exact hstep (.remote_estimate 500000)⟩

/-! ## C10 -/

/-- C10: for every negotiated (width, height), `check_caps_probe` decrements an
odd width by one and an odd height by one and leaves an even dimension
untouched; it requests the filter, with the corrected values, if and only if
at least one dimension was odd; the corrected values are both even, so the
probe requests nothing on its own output nor on any even dimensions; and the
decrement of an odd `int` never leaves the range of `int`. -/
theorem C10_parity_correction (width height : Int) :
    (check_caps_probe (.caps width height) =
      if width % 2 = 1 ∨ height % 2 = 1 then
        some (if width % 2 = 1 then width - 1 else width,
              if height % 2 = 1 then height - 1 else height)
      else none) ∧
    (∀ w h : Int, check_caps_probe (.caps width height) = some (w, h) →
      w % 2 = 0 ∧ h % 2 = 0 ∧ check_caps_probe (.caps w h) = none) ∧
    (width % 2 = 0 → height % 2 = 0 → check_caps_probe (.caps width height) = none) ∧
    (G_MININT ≤ width → width % 2 = 1 → G_MININT ≤ width - 1) ∧
    (G_MININT ≤ height → height % 2 = 1 → G_MININT ≤ height - 1) := by
  refine ⟨check_caps_probe_eq width height, ?_, ?_, ?_, ?_⟩
  · intro w h hp
    rw [check_caps_probe_eq] at hp
    split at hp
    · simp only [Option.some.injEq, Prod.mk.injEq] at hp
      obtain ⟨hw, hh⟩ := hp
      have ew : w % 2 = 0 := by
        rw [← hw]
        split <;> omega
      have eh : h % 2 = 0 := by
        rw [← hh]
        split <;> omega
      refine ⟨ew, eh, ?_⟩
      rw [check_caps_probe_eq, if_neg (by omega)]
    · exact absurd hp (by simp)
  · intro hw hh
    rw [check_caps_probe_eq, if_neg (by omega)]
  · unfold G_MININT
    omega
  · unfold G_MININT
    omega

/-- C10, at the negotiated dimensions (641, 480): the filter is requested with
(640, 480), and on (640, 480) nothing is requested. -/
theorem C10_parity_correction_witness :
    check_caps_probe (.caps 641 480) = some (640, 480) ∧
    ((640 : Int) % 2 = 0 ∧ (480 : Int) % 2 = 0 ∧ check_caps_probe (.caps 640 480) = none) :=
  ⟨by decide, (C10_parity_correction 641 480).2.1 640 480 (by decide)⟩

/-! ## C11 -/

/-- C11 (the code departs from the claim on the empty list): when no factory
is capable of the caps, `kms_enc_tree_bin_create_encoder_for_caps` reads
`filtered_list->data` of a `NULL` list, so neither it nor
`kms_enc_tree_bin_configure` nor `kms_enc_tree_bin_new` returns. On every
non-empty list of capable candidates the claim holds: the instance is created
from the first candidate, after override and exclusion, that has two pad
templates, and when there is none no instance is created,
`kms_enc_tree_bin_configure` returns FALSE and `kms_enc_tree_bin_new` NULL. -/
theorem C11_selection :
    (capable_candidates [] caps_h264 = [] ∧
      kms_enc_tree_bin_create_encoder_for_caps [] caps_h264 500000 none = none ∧
      kms_enc_tree_bin_new [] caps_h264 500000 0 1000000 none = none) ∧
    (∀ (registry : List GstElementFactory) (caps : GstCaps) (target mn mx : Int)
        (cfg : Option (List (String × ConfigField))),
      capable_candidates registry caps = [] →
        kms_enc_tree_bin_create_encoder_for_caps registry caps target cfg = none ∧
        kms_enc_tree_bin_configure mn mx registry caps target cfg = none ∧
        kms_enc_tree_bin_new registry caps target mn mx cfg = none) ∧
    (∀ (registry : List GstElementFactory) (caps : GstCaps) (target : Int)
        (cfg : Option (List (String × ConfigField)))
        (pre post : List GstElementFactory) (f : GstElementFactory),
      capable_candidates registry caps ≠ [] →
      after_exclusion (capable_candidates registry caps) = pre ++ f :: post →
      f.num_pad_templates = 2 → (∀ g ∈ pre, g.num_pad_templates ≠ 2) →
        kms_enc_tree_bin_create_encoder_for_caps registry caps target cfg
          = some (some
              (configure_encoder (gst_element_factory_create f)
                (kms_enc_tree_bin_set_encoder_type (gst_element_factory_create f).name)
                target cfg,
               kms_enc_tree_bin_set_encoder_type (gst_element_factory_create f).name))) ∧
    (∀ (registry : List GstElementFactory) (caps : GstCaps) (target mn mx : Int)
        (cfg : Option (List (String × ConfigField))),
      capable_candidates registry caps ≠ [] →
      (∀ g ∈ after_exclusion (capable_candidates registry caps), g.num_pad_templates ≠ 2) →
        kms_enc_tree_bin_create_encoder_for_caps registry caps target cfg = some none ∧
        kms_enc_tree_bin_configure mn mx registry caps target cfg = some none ∧
        kms_enc_tree_bin_new registry caps target mn mx cfg = some none) := by
  refine ⟨by decide, ?_, ?_, ?_⟩
  · intro registry caps target mn mx cfg h
    have hc := fun t => create_encoder_of_nil registry caps t cfg h
    refine ⟨hc target, (configure_of_create mn mx registry caps target cfg).1 (hc target), ?_⟩
    unfold kms_enc_tree_bin_new
    exact (configure_of_create mn mx registry caps _ cfg).1 (hc _)
  · intro registry caps target cfg pre post f hne hdec hf hpre
    obtain ⟨first, rest, hl⟩ := List.exists_cons_of_ne_nil hne
    rw [create_encoder_of_cons registry caps target cfg first rest hl, ← hl,
      select_encoder_of_first _ pre post f target cfg hdec hf hpre]
  · intro registry caps target mn mx cfg hne hall
    obtain ⟨first, rest, hl⟩ := List.exists_cons_of_ne_nil hne
    have hc : ∀ t, kms_enc_tree_bin_create_encoder_for_caps registry caps t cfg = some none := by
      intro t
      rw [create_encoder_of_cons registry caps t cfg first rest hl, ← hl,
        select_encoder_of_none _ t cfg hall]
    refine ⟨hc target, (configure_of_create mn mx registry caps target cfg).2 (hc target), ?_⟩
    unfold kms_enc_tree_bin_new
    exact (configure_of_create mn mx registry caps _ cfg).2 (hc _)

/-! ## C12 -/

/-- C12 (as stated, refuted): in `registry_two_openh264` both `openh264enc` and
`x264enc` are capable candidates with two pad templates, yet the instance
created is `openh264enc0`: the factory moved to the front is `openh264auxenc`,
which is not skipped and has three pad templates. -/
theorem C12_counterexample :
    capable_candidates registry_two_openh264 caps_h264 = registry_two_openh264 ∧
    after_exclusion (capable_candidates registry_two_openh264 caps_h264)
      = registry_two_openh264 ∧
    kms_enc_tree_bin_create_encoder_for_caps registry_two_openh264 caps_h264 500000 none
      = some (some ({ name := "openh264enc0",
                      props := [("bitrate", 500000), ("rate-control", 1)] },
                    EncoderType.OPENH264)) := by
  decide

/-- C12 (amended): for every registry list, the first factory whose name
starts with "openh264" is moved to the front and the order of all others is
kept (a list without such a factory is unchanged); if the first capable
candidate's name starts with "openh264enc" it is skipped and the selection is
made among the candidates after it, so that a candidate with two pad templates
among them yields an instance of one of them; if it does not, nothing is
skipped; and whenever the factory moved to the front is capable and named
"openh264enc...", the selection is made among the other registry factories
only, in their registry order, so that a capable one among them with two pad
templates yields an instance of one of them. -/
theorem C12_override_and_exclusion (registry : List GstElementFactory) (caps : GstCaps)
    (target : Int) (cfg : Option (List (String × ConfigField))) :
    (∀ (pre post : List GstElementFactory) (f : GstElementFactory),
      registry = pre ++ f :: post → g_str_has_prefix f.name "openh264" = true →
      (∀ g ∈ pre, g_str_has_prefix g.name "openh264" = false) →
        augment_openh264_rank registry = f :: (pre ++ post)) ∧
    ((∀ g ∈ registry, g_str_has_prefix g.name "openh264" = false) →
      augment_openh264_rank registry = registry) ∧
    (∀ (first : GstElementFactory) (rest : List GstElementFactory),
      capable_candidates registry caps = first :: rest →
      g_str_has_prefix first.name "openh264enc" = true →
        kms_enc_tree_bin_create_encoder_for_caps registry caps target cfg
          = some (select_encoder rest target cfg) ∧
        ∀ g ∈ rest, g.num_pad_templates = 2 →
          ∃ f, f ∈ rest ∧ f.num_pad_templates = 2 ∧
            kms_enc_tree_bin_create_encoder_for_caps registry caps target cfg
              = some (some
                  (configure_encoder (gst_element_factory_create f)
                    (kms_enc_tree_bin_set_encoder_type (gst_element_factory_create f).name)
                    target cfg,
                   kms_enc_tree_bin_set_encoder_type (gst_element_factory_create f).name))) ∧
    (∀ (first : GstElementFactory) (rest : List GstElementFactory),
      capable_candidates registry caps = first :: rest →
      g_str_has_prefix first.name "openh264enc" = false →
        kms_enc_tree_bin_create_encoder_for_caps registry caps target cfg
          = some (select_encoder (first :: rest) target cfg)) ∧
    (∀ (pre post : List GstElementFactory) (f : GstElementFactory),
      registry = pre ++ f :: post → g_str_has_prefix f.name "openh264" = true →
      (∀ g ∈ pre, g_str_has_prefix g.name "openh264" = false) →
      g_str_has_prefix f.name "openh264enc" = true →
      f.src_caps.contains caps.media_type = true →
        kms_enc_tree_bin_create_encoder_for_caps registry caps target cfg
          = some (select_encoder (gst_element_factory_list_filter (pre ++ post) caps)
              target cfg) ∧
        ∀ g ∈ pre ++ post, g.src_caps.contains caps.media_type = true →
          g.num_pad_templates = 2 →
          ∃ f', f' ∈ pre ++ post ∧ f'.num_pad_templates = 2 ∧
            kms_enc_tree_bin_create_encoder_for_caps registry caps target cfg
              = some (some
                  (configure_encoder (gst_element_factory_create f')
                    (kms_enc_tree_bin_set_encoder_type (gst_element_factory_create f').name)
                    target cfg,
                   kms_enc_tree_bin_set_encoder_type
                     (gst_element_factory_create f').name))) := by
  have skip : ∀ (first : GstElementFactory) (rest : List GstElementFactory),
      capable_candidates registry caps = first :: rest →
      g_str_has_prefix first.name "openh264enc" = true →
        kms_enc_tree_bin_create_encoder_for_caps registry caps target cfg
          = some (select_encoder rest target cfg) := by
    intro first rest hl hp
    rw [create_encoder_of_cons registry caps target cfg first rest hl]
    simp only [after_exclusion, hp, if_true]
  refine ⟨?_, augment_of_none registry, ?_, ?_, ?_⟩
  · intro pre post f hl hf hpre
    exact augment_of_first registry pre post f hl hf hpre
  · intro first rest hl hp
    refine ⟨skip first rest hl hp, ?_⟩
    intro g hg hg2
    obtain ⟨f, hf, hf2, hsel⟩ := select_encoder_mem rest target cfg g hg hg2
    exact ⟨f, hf, hf2, by rw [skip first rest hl hp, hsel]⟩
  · intro first rest hl hp
    rw [create_encoder_of_cons registry caps target cfg first rest hl]
    simp only [after_exclusion, hp]
    rfl
  · intro pre post f hl hf hpre hp hcap
    have hsel : kms_enc_tree_bin_create_encoder_for_caps registry caps target cfg
        = some (select_encoder (gst_element_factory_list_filter (pre ++ post) caps)
            target cfg) := by
      apply skip f
      · unfold capable_candidates
        rw [augment_of_first registry pre post f hl hf hpre]
        unfold gst_element_factory_list_filter
        simp only [List.filter_cons, hcap, if_true]
      · exact hp
    refine ⟨hsel, ?_⟩
    intro g hg hgc hg2
    have hg' : g ∈ gst_element_factory_list_filter (pre ++ post) caps := by
      unfold gst_element_factory_list_filter
      exact List.mem_filter.mpr ⟨hg, hgc⟩
    obtain ⟨f', hf', hf2, hs⟩ := select_encoder_mem _ target cfg g hg' hg2
    refine ⟨f', ?_, hf2, by rw [hsel, hs]⟩
    unfold gst_element_factory_list_filter at hf'
    exact (List.mem_filter.mp hf').1

/-- C12 (amended), at the registry holding `x264enc` before `openh264enc`:
`openh264enc` is moved to the front and skipped, and `x264enc0` is created. -/
theorem C12_override_and_exclusion_witness :
    augment_openh264_rank registry_x264_openh264
      = [{ name := "openh264enc", num_pad_templates := 2, src_caps := ["video/x-h264"],
           element_name := "openh264enc0", props := [("bitrate", 128000)] },
         { name := "x264enc", num_pad_templates := 2, src_caps := ["video/x-h264"],
           element_name := "x264enc0", props := [("bitrate", 2048)] }] ∧
    kms_enc_tree_bin_create_encoder_for_caps registry_x264_openh264 caps_h264 500000 none
      = some (select_encoder
          (gst_element_factory_list_filter
            ([{ name := "x264enc", num_pad_templates := 2, src_caps := ["video/x-h264"],
                element_name := "x264enc0", props := [("bitrate", 2048)] }] ++ [])
            caps_h264)
          500000 none) ∧
    select_encoder
        (gst_element_factory_list_filter
          ([{ name := "x264enc", num_pad_templates := 2, src_caps := ["video/x-h264"],
              element_name := "x264enc0", props := [("bitrate", 2048)] }] ++ [])
          caps_h264)
        500000 none
      = some ({ name := "x264enc0",
                props := [("bitrate", 500), ("speed-preset", 3), ("threads", 1),
                          ("key-int-max", 60), ("tune", 4)] },
              EncoderType.X264) :=
  ⟨(C12_override_and_exclusion registry_x264_openh264 caps_h264 500000 none).1
      [{ name := "x264enc", num_pad_templates := 2, src_caps := ["video/x-h264"],
         element_name := "x264enc0", props := [("bitrate", 2048)] }] []
      { name := "openh264enc", num_pad_templates := 2, src_caps := ["video/x-h264"],
        element_name := "openh264enc0", props := [("bitrate", 128000)] }
      (by decide) (by decide) (by decide),
   ((C12_override_and_exclusion registry_x264_openh264 caps_h264 500000 none).2.2.2.2
      [{ name := "x264enc", num_pad_templates := 2, src_caps := ["video/x-h264"],
         element_name := "x264enc0", props := [("bitrate", 2048)] }] []
      { name := "openh264enc", num_pad_templates := 2, src_caps := ["video/x-h264"],
        element_name := "openh264enc0", props := [("bitrate", 128000)] }
      (by decide) (by decide) (by decide) (by decide) (by decide)).1,
   by decide⟩

/-! ## C13 -/

/-- C13 (as stated, refuted): the hint value 3000000000 is not what the source
hint becomes: `tag_event_probe` stores it in a signed 32 bit field, which then
holds -1294967296. -/
theorem C13_counterexample :
    (tag_event_probe (sample_branch .VP8) (.tag (some 3000000000))).map
        KmsEncTreeBin.tag_bitrate = some (-1294967296) ∧
    tag_event_probe (sample_branch .VP8) (.tag (some 3000000000))
      = kms_enc_tree_bin_set_target_bitrate
          { sample_branch .VP8 with tag_bitrate := -1294967296 } ∧
    tag_event_probe (sample_branch .VP8) (.tag (some 3000000000))
      ≠ kms_enc_tree_bin_set_target_bitrate
          { sample_branch .VP8 with tag_bitrate := 3000000000 } := by
  decide

/-- C13 (amended): for every branch state and every hint value v (an unsigned
32 bit value), including v = 0, `tag_event_probe` stores v read as a signed 32
bit integer in `tag_bitrate` and runs `kms_enc_tree_bin_set_target_bitrate` on
the result, with no zero filter; the stored value is v itself for every
v < 2^31 and v - 2^32 for 2^31 <= v < 2^32. -/
theorem C13_source_hint (self : KmsEncTreeBin) (v : Nat) :
    tag_event_probe self (.tag (some v))
      = kms_enc_tree_bin_set_target_bitrate { self with tag_bitrate := gint_of_guint v } ∧
    (v < 2147483648 →
      tag_event_probe self (.tag (some v))
        = kms_enc_tree_bin_set_target_bitrate { self with tag_bitrate := (v : Int) }) ∧
    (2147483648 ≤ v → v < 4294967296 → gint_of_guint v = (v : Int) - 4294967296) ∧
    tag_event_probe self (.tag (some 0))
      = kms_enc_tree_bin_set_target_bitrate { self with tag_bitrate := 0 } ∧
    (∀ s', tag_event_probe self (.tag (some v)) = some s' →
      s'.tag_bitrate = gint_of_guint v) := by
  refine ⟨rfl, ?_, ?_, rfl, ?_⟩
  · intro h
    rw [← gint_of_guint_small v h]
    rfl
  · intro h1 h2
    unfold gint_of_guint
    have h3 : v % 4294967296 = v := Nat.mod_eq_of_lt h2
    rw [h3, if_neg (by omega)]
  · intro s' h
    have hf := set_target_frame { self with tag_bitrate := gint_of_guint v } s' h
    exact hf.2.2.2.1

/-- C13 (amended), at the hints 0 and 400000 on a VP8 branch. -/
theorem C13_source_hint_witness :
    tag_event_probe (sample_branch .VP8) (.tag (some 0))
      = kms_enc_tree_bin_set_target_bitrate { sample_branch .VP8 with tag_bitrate := 0 } ∧
    tag_event_probe (sample_branch .VP8) (.tag (some 400000))
      = kms_enc_tree_bin_set_target_bitrate
          { sample_branch .VP8 with tag_bitrate := ((400000 : Nat) : Int) } ∧
    (tag_event_probe (sample_branch .VP8) (.tag (some 400000))).map
        KmsEncTreeBin.current_bitrate = some 400000 :=
  ⟨(C13_source_hint (sample_branch .VP8) 0).2.2.2.1,
   (C13_source_hint (sample_branch .VP8) 400000).2.1 (by decide),
   by decide⟩

/-! ## C14 -/

/-- C14: for every branch state and every pair (min, max), ordered or not,
`kms_enc_tree_bin_set_bitrate_limits` stores the pair and runs
`kms_enc_tree_bin_set_target_bitrate` unconditionally; that run never changes
the stored bounds, so the getters of the returned branch give exactly min and
max; and the call returns for every branch whose width is set when its kind
is a hardware one. -/
theorem C14_limits_round_trip (self : KmsEncTreeBin) (mn mx : Int) :
    kms_enc_tree_bin_set_bitrate_limits self mn mx
      = kms_enc_tree_bin_set_target_bitrate { self with max_bitrate := mx, min_bitrate := mn } ∧
    (∀ s', kms_enc_tree_bin_set_bitrate_limits self mn mx = some s' →
      kms_enc_tree_bin_get_min_bitrate s' = mn ∧ kms_enc_tree_bin_get_max_bitrate s' = mx) ∧
    (∀ s', kms_enc_tree_bin_set_target_bitrate self = some s' →
      kms_enc_tree_bin_get_min_bitrate s' = kms_enc_tree_bin_get_min_bitrate self ∧
      kms_enc_tree_bin_get_max_bitrate s' = kms_enc_tree_bin_get_max_bitrate self) ∧
    ((is_vaapi self.enc_type = true → self.width ≠ none) →
      ∃ s', kms_enc_tree_bin_set_bitrate_limits self mn mx = some s') := by
  refine ⟨rfl, ?_, ?_, ?_⟩
  · intro s' h
    have hf := set_target_frame { self with max_bitrate := mx, min_bitrate := mn } s' h
    exact ⟨hf.1, hf.2.1⟩
  · intro s' h
    have hf := set_target_frame self s' h
    exact ⟨hf.1, hf.2.1⟩
  · intro hw
    exact set_target_total { self with max_bitrate := mx, min_bitrate := mn } hw

/-- C14, at the unordered pair (100000, 50000) on the hardware H.264 branch
built with target 500000: the getters return 100000 and 50000. -/
theorem C14_limits_round_trip_witness :
    (kms_enc_tree_bin_set_bitrate_limits (branch_h264 500000 0 1000000) 100000 50000).map
        kms_enc_tree_bin_get_min_bitrate = some 100000 ∧
    (kms_enc_tree_bin_set_bitrate_limits (branch_h264 500000 0 1000000) 100000 50000).map
        kms_enc_tree_bin_get_max_bitrate = some 50000 ∧
    ∃ s', kms_enc_tree_bin_set_bitrate_limits (branch_h264 500000 0 1000000) 100000 50000
        = some s' :=
  ⟨by decide, by decide,
   (C14_limits_round_trip (branch_h264 500000 0 1000000) 100000 50000).2.2.2 (by decide)⟩

/-! ## C15 -/

/-- C15 (as stated, refuted): an UNSUPPORTED branch at 300000 that receives
the remote estimate 500000 writes nothing to its encoder and reports the
error, but its `current_bitrate` becomes 500000. -/
theorem C15_counterexample :
    (sample_branch .UNSUPPORTED).current_bitrate = 300000 ∧
    (bitrate_callback (sample_branch .UNSUPPORTED) 500000).map KmsEncTreeBin.current_bitrate
      = some 500000 ∧
    (bitrate_callback (sample_branch .UNSUPPORTED) 500000).map KmsEncTreeBin.enc
      = some (sample_branch .UNSUPPORTED).enc ∧
    (bitrate_callback (sample_branch .UNSUPPORTED) 500000).map KmsEncTreeBin.log
      = some [Effect.error "Skip setting bitrate, encoder not supported"] := by
  decide

/-- C15 (amended): for a branch whose kind has no case in the `switch` (OPUS
or UNSUPPORTED), every run of `kms_enc_tree_bin_set_target_bitrate` returns,
leaves the encoder and the caps filter untouched and writes no parameter;
`current_bitrate`, however, is set to the fused target whenever the clamped
candidate is > 0, and keeps its value only when the candidate is <= 0. -/
theorem C15_unsupported_kind (self : KmsEncTreeBin)
    (hk : self.enc_type = .OPUS ∨ self.enc_type = .UNSUPPORTED) :
    ∃ s', kms_enc_tree_bin_set_target_bitrate self = some s' ∧
      s'.enc = self.enc ∧ s'.capsfilter = self.capsfilter ∧
      new_pushes self s' = [] ∧
      (0 < fusion_candidate self → s'.current_bitrate = fusion_candidate self) ∧
      (fusion_candidate self ≤ 0 → s'.current_bitrate = self.current_bitrate) := by
  have hcur : ∀ s', kms_enc_tree_bin_set_target_bitrate self = some s' →
      (0 < fusion_candidate self → s'.current_bitrate = fusion_candidate self) ∧
      (fusion_candidate self ≤ 0 → s'.current_bitrate = self.current_bitrate) := by
    intro s' h
    have hf := (set_target_frame self s' h).2.2.2.2.2.1
    constructor
    · intro hp
      rw [hf]
      unfold fused_bitrate
      rw [if_neg (by omega)]
    · intro hp
      rw [hf]
      unfold fused_bitrate
      rw [if_pos hp]
  have hrun : kms_enc_tree_bin_set_target_bitrate self
        = some { self with current_bitrate := fused_bitrate self } ∨
      kms_enc_tree_bin_set_target_bitrate self
        = some (report_unsupported { self with current_bitrate := fused_bitrate self }) := by
    unfold kms_enc_tree_bin_set_target_bitrate
    simp only [get_bitrate_fst, get_bitrate_snd]
    split
    · exact Or.inl rfl
    · right
      rcases hk with hk | hk <;> simp only [hk]
  rcases hrun with h | h
  · refine ⟨_, h, rfl, rfl, ?_, hcur _ h⟩
    exact new_pushes_append self _ [] (by simp)
  · refine ⟨_, h, rfl, rfl, ?_, hcur _ h⟩
    exact new_pushes_append self
      (report_unsupported { self with current_bitrate := fused_bitrate self })
      [Effect.error "Skip setting bitrate, encoder not supported"] rfl

/-- C15 (amended), at an UNSUPPORTED branch that holds the remote estimate
500000: the run writes nothing and `current_bitrate` becomes 500000. -/
theorem C15_unsupported_kind_witness :
    0 < fusion_candidate { sample_branch .UNSUPPORTED with remb_bitrate := 500000 } ∧
    ∃ s', kms_enc_tree_bin_set_target_bitrate
          { sample_branch .UNSUPPORTED with remb_bitrate := 500000 } = some s' ∧
      s'.enc = (sample_branch .UNSUPPORTED).enc ∧
      new_pushes { sample_branch .UNSUPPORTED with remb_bitrate := 500000 } s' = [] ∧
      s'.current_bitrate
        = fusion_candidate { sample_branch .UNSUPPORTED with remb_bitrate := 500000 } :=
  ⟨by decide,
   (C15_unsupported_kind { sample_branch .UNSUPPORTED with remb_bitrate := 500000 }
      (Or.inr rfl)).imp
     (fun _ hx => ⟨hx.1, hx.2.1, hx.2.2.2.1, hx.2.2.2.2.1 (by decide)⟩)⟩

/-! ## C16 -/

/-- C16 (as stated, refuted): the kinds VAAPIVP8 and VAAPIH264 are not
UNSUPPORTED, but `kms_enc_tree_bin_get_name_from_type` gives them no family
name, so no entry of an override set is ever applied to them: with entries
under "vaapih264", "vaapivp8" and "vaapi" that set `bitrate` to 777, the
hardware encoder keeps the preset 500. -/
theorem C16_counterexample :
    kms_enc_tree_bin_get_name_from_type .VAAPIH264 = none ∧
    kms_enc_tree_bin_get_name_from_type .VAAPIVP8 = none ∧
    configure_encoder { name := "vaapiencodeh264-0", props := [("bitrate", 0)] } .VAAPIH264
        500000 (some sample_vaapi_configs)
      = { name := "vaapiencodeh264-0", props := [("bitrate", 500), ("rate-control", 2)] } ∧
    configure_encoder { name := "vaapiencodevp8-0", props := [("bitrate", 0)] } .VAAPIVP8
        500000 (some sample_vaapi_configs)
      = { name := "vaapiencodevp8-0", props := [("bitrate", 500), ("rate-control", 2)] } := by
  decide

/-- C16 (amended): for every encoder kind to which
`kms_enc_tree_bin_get_name_from_type` gives a family name (VP8, X264, OPENH264
and OPUS) and every override set holding an entry for that name,
`configure_encoder` leaves each recognized parameter with the supplied value
when the entry names it and the value coerces, and with its preset value when
coercion fails or the entry does not name it; a name the encoder does not
recognize changes nothing. For VAAPIVP8 and VAAPIH264 there is no family name
and only the presets are applied, whatever the override set; for UNSUPPORTED
no parameter is written at all. -/
theorem C16_overrides (encoder : GstElement) (target : Int) :
    (∀ (type : EncoderType) (cfg : List (String × ConfigField)) (family : String)
        (entry : List (String × Option Int)) (k : String),
      kms_enc_tree_bin_get_name_from_type type = some family →
      cfg.lookup family = some (.nested entry) →
        (k ∈ recognized_parameters (preset_encoder encoder type target) →
          ∀ v, entry.lookup k = some (some v) →
            g_object_get (configure_encoder encoder type target (some cfg)) k = v) ∧
        (entry.lookup k = some none →
          g_object_get (configure_encoder encoder type target (some cfg)) k
            = g_object_get (preset_encoder encoder type target) k) ∧
        (entry.lookup k = none →
          g_object_get (configure_encoder encoder type target (some cfg)) k
            = g_object_get (preset_encoder encoder type target) k) ∧
        (k ∉ recognized_parameters (preset_encoder encoder type target) →
          g_object_get (configure_encoder encoder type target (some cfg)) k
            = g_object_get (preset_encoder encoder type target) k)) ∧
    (∀ type : EncoderType,
      (∃ family, kms_enc_tree_bin_get_name_from_type type = some family) ↔
        (type = .VP8 ∨ type = .X264 ∨ type = .OPENH264 ∨ type = .OPUS)) ∧
    (∀ cfg : Option (List (String × ConfigField)),
      configure_encoder encoder .VAAPIVP8 target cfg = preset_encoder encoder .VAAPIVP8 target ∧
      configure_encoder encoder .VAAPIH264 target cfg
        = preset_encoder encoder .VAAPIH264 target) ∧
    (∀ cfg : Option (List (String × ConfigField)),
      configure_encoder encoder .UNSUPPORTED target cfg = encoder) := by
  refine ⟨?_, ?_, ?_, ?_⟩
  · intro type cfg family entry k hn he
    rw [overrides_get encoder type target cfg family entry hn he k]
    refine ⟨?_, ?_, ?_, ?_⟩
    · intro hmem v hv
      rw [if_pos hmem, hv]
    · intro hv
      rw [hv]
      split <;> rfl
    · intro hv
      rw [hv]
      split <;> rfl
    · intro hmem
      rw [if_neg hmem]
  · intro type
    cases type <;> simp [kms_enc_tree_bin_get_name_from_type]
  · intro cfg
    constructor <;>
      (rw [configure_encoder_eq]
       cases cfg <;> rfl)
  · intro cfg
    rw [configure_encoder_eq]
    cases cfg <;> rfl

/-- C16 (amended), at a fresh `x264enc0` with target 500000 and overrides for
the `x264` family: `bitrate` takes the supplied 999, `threads`, whose value does
not coerce, keeps the preset 1, `tune`, which is not named, keeps the preset 4,
and `cabac`, which the encoder does not recognize, is not added. -/
theorem C16_overrides_witness :
    (kms_enc_tree_bin_get_name_from_type .X264 = some "x264" ∧
      sample_codec_configs.lookup "x264"
        = some (.nested [("bitrate", some 999), ("threads", none), ("cabac", some 1)])) ∧
    configure_encoder x264enc0 .X264 500000 (some sample_codec_configs)
      = { name := "x264enc0",
          props := [("bitrate", 999), ("threads", 1), ("pass", 0), ("speed-preset", 3),
                    ("key-int-max", 60), ("tune", 4)] } ∧
    g_object_get (configure_encoder x264enc0 .X264 500000 (some sample_codec_configs)) "bitrate"
      = 999 ∧
    g_object_get (configure_encoder x264enc0 .X264 500000 (some sample_codec_configs)) "threads"
      = g_object_get (preset_encoder x264enc0 .X264 500000) "threads" ∧
    g_object_get (configure_encoder x264enc0 .X264 500000 (some sample_codec_configs)) "tune"
      = g_object_get (preset_encoder x264enc0 .X264 500000) "tune" :=
  ⟨by decide, by decide,
   ((C16_overrides x264enc0 500000).1 .X264 sample_codec_configs "x264"
      [("bitrate", some 999), ("threads", none), ("cabac", some 1)] "bitrate"
      (by decide) (by decide)).1 (by decide) 999 (by decide),
   ((C16_overrides x264enc0 500000).1 .X264 sample_codec_configs "x264"
      [("bitrate", some 999), ("threads", none), ("cabac", some 1)] "threads"
      (by decide) (by decide)).2.1 (by decide),
   ((C16_overrides x264enc0 500000).1 .X264 sample_codec_configs "x264"
      [("bitrate", some 999), ("threads", none), ("cabac", some 1)] "tune"
      (by decide) (by decide)).2.2.1 (by decide)⟩

/-! ## C17 -/

/-- C17 (the code departs from the claim for OPENH264): the `OPENH264` case of
`kms_enc_tree_bin_set_target_bitrate` has no `break`, so an OPENH264 branch
given the remote estimate 500000 writes its `bitrate` and then reports the
unsupported-encoder error. In general a run that returns reports the error
exactly when its target is positive and the kind is OPENH264, OPUS or
UNSUPPORTED; for VAAPIVP8, VAAPIH264, VP8 and X264 it never does. -/
theorem C17_error_report :
    (bitrate_callback (sample_branch .OPENH264) 500000).map KmsEncTreeBin.log
      = some [Effect.enc_set "bitrate" 500000, unsupported_error] ∧
    (∀ s s' : KmsEncTreeBin, kms_enc_tree_bin_set_target_bitrate s = some s' →
      (unsupported_error ∈ new_effects s s' ↔
        (0 < fused_bitrate s ∧
          (s.enc_type = .OPENH264 ∨ s.enc_type = .OPUS ∨ s.enc_type = .UNSUPPORTED)))) ∧
    (∀ s s' : KmsEncTreeBin, kms_enc_tree_bin_set_target_bitrate s = some s' →
      s.enc_type = .VAAPIVP8 ∨ s.enc_type = .VAAPIH264 ∨ s.enc_type = .VP8 ∨
        s.enc_type = .X264 →
      unsupported_error ∉ new_effects s s') := by
  refine ⟨by decide, fun s s' h => (set_target_effects s s' h).2, ?_⟩
  intro s s' h hk hm
  have hr := ((set_target_effects s s' h).2.mp hm).2
  rcases hk with hk | hk | hk | hk <;> rw [hk] at hr <;> simp at hr

/-! ## C18 -/

/-- C18 (as stated, refuted): for the hardware kinds `configure_encoder` sets
`bitrate` to b / 1000 and `kms_enc_tree_bin_set_target_bitrate` computes
b / 500: at b = 500000 that is 500 against 1000, and the first run after the
construction of a hardware H.264 branch, which reproduces the initial target
500000, pushes 1000. A software H.264 branch built with an override of
`bitrate` (999) pushes 500 in its first run as well. -/
theorem C18_counterexample :
    ((encoder_presets .VAAPIH264 500000).lookup "bitrate" = some 500 ∧
      apply_native_value .VAAPIH264 500000 = some ("bitrate", 1000)) ∧
    (kms_enc_tree_bin_new registry_h264 caps_h264 500000 0 1000000 none
        = some (some (branch_h264 500000 0 1000000)) ∧
      fused_bitrate (branch_h264 500000 0 1000000) = 500000 ∧
      (kms_enc_tree_bin_set_target_bitrate (branch_h264 500000 0 1000000)).map
          (new_pushes (branch_h264 500000 0 1000000))
        = some [Effect.enc_set "bitrate" 1000,
                Effect.capsfilter_set "video/x-raw,width=480,height=270"]) ∧
    (construct_and_run registry_x264 caps_h264 500000 0 1000000 (some sample_codec_configs)
          []).map KmsEncTreeBin.enc
        = some { name := "x264enc0",
                 props := [("bitrate", 999), ("threads", 1), ("pass", 0), ("speed-preset", 3),
                           ("key-int-max", 60), ("tune", 4)] } ∧
      (construct_and_run registry_x264 caps_h264 500000 0 1000000 (some sample_codec_configs)
          [.set_limits 0 1000000]).map KmsEncTreeBin.log
        = some [Effect.enc_set "bitrate" 500] := by
  decide

/-- C18 (amended): every parameter `kms_enc_tree_bin_set_target_bitrate` writes
to the encoder carries the value `apply_native_value` gives for the kind and
the target. For VP8, X264 and OPENH264 and every bitrate 0 < b <= G_MAXINT that
value is the one the presets of `configure_encoder` set for an initial bitrate
b, so on a branch of one of these kinds built without overrides a run that
reproduces the initial target pushes nothing. For VAAPIVP8 and VAAPIH264 the
presets set b / 1000 while the run computes b / 500, which differ for every
b >= 500. -/
theorem C18_unit_rules :
    (∀ s s' : KmsEncTreeBin, kms_enc_tree_bin_set_target_bitrate s = some s' →
      ∀ p v, Effect.enc_set p v ∈ new_effects s s' →
        apply_native_value s.enc_type (fused_bitrate s) = some (p, v)) ∧
    (∀ (type : EncoderType) (b : Int), 0 < b → b ≤ G_MAXINT →
      type = .VP8 ∨ type = .X264 ∨ type = .OPENH264 →
      ∃ p v, apply_native_value type b = some (p, v) ∧
        (encoder_presets type b).lookup p = some v) ∧
    (∀ (registry : List GstElementFactory) (caps : GstCaps) (target mn mx : Int)
        (s0 : KmsEncTreeBin),
      kms_enc_tree_bin_new registry caps target mn mx none = some (some s0) →
      s0.enc_type = .VP8 ∨ s0.enc_type = .X264 ∨ s0.enc_type = .OPENH264 →
      mn ≤ G_MAXINT → mx ≤ G_MAXINT →
      fused_bitrate s0 = s0.current_bitrate →
      ∃ s', kms_enc_tree_bin_set_target_bitrate s0 = some s' ∧ new_pushes s0 s' = []) ∧
    (∀ (type : EncoderType) (b : Int), type = .VAAPIVP8 ∨ type = .VAAPIH264 →
      apply_native_value type b = some ("bitrate", guint_of_gint (Int.tdiv b 500)) ∧
      (encoder_presets type b).lookup "bitrate" = some (Int.tdiv b 1000) ∧
      (500 ≤ b → b ≤ G_MAXINT → guint_of_gint (Int.tdiv b 500) ≠ Int.tdiv b 1000)) := by
  refine ⟨fun s s' h => (set_target_effects s s' h).1, ?_, ?_, ?_⟩
  · intro type b h0 h1 hk
    rcases hk with hk | hk | hk <;> subst hk
    · exact ⟨"target-bitrate", b, rfl, by simp [encoder_presets, List.lookup]⟩
    · refine ⟨"bitrate", Int.tdiv b 1000, ?_, by simp [encoder_presets, List.lookup]⟩
      simp only [apply_native_value, tdiv_small b (by omega) h1]
    · refine ⟨"bitrate", b, ?_, by simp [encoder_presets, List.lookup]⟩
      simp only [apply_native_value, guint_of_small b (by omega) h1]
  · intro registry caps target mn mx s0 h hk hmn hmx hf
    obtain ⟨f, _, _, _, _, henc⟩ := new_enc registry caps target mn mx none s0 h
    have hcur := (new_post registry caps target mn mx none s0 h).1
    have hle : s0.current_bitrate ≤ G_MAXINT := by
      rw [hcur]
      have := limit_le_max mn mx target
      omega
    by_cases hpos : s0.current_bitrate ≤ 0
    · exact ⟨s0, set_target_of_nonpos s0 hf hpos, new_pushes_self s0⟩
    · have henc' : s0.enc = preset_encoder (gst_element_factory_create f) s0.enc_type
          s0.current_bitrate := by
        rw [henc, configure_encoder_eq]
        rfl
      have hs : in_sync s0 s0.current_bitrate := by
        unfold in_sync
        rcases hk with hk | hk | hk
        · rw [hk] at henc' ⊢
          simp only [henc', preset_get_vp8]
        · rw [hk] at henc' ⊢
          simp only [henc', preset_get_x264, tdiv_small _ (by omega) hle]
        · rw [hk] at henc' ⊢
          simp only [henc', preset_get_openh264, guint_of_small _ (by omega) hle]
      obtain ⟨s2, h2, hp, _⟩ := set_target_of_sync s0 hf hs
      exact ⟨s2, h2, hp⟩
  · intro type b hk
    have hne : 500 ≤ b → b ≤ G_MAXINT → guint_of_gint (Int.tdiv b 500) ≠ Int.tdiv b 1000 := by
      intro h0 h1
      rw [Int.tdiv_eq_ediv (by omega) (by decide), Int.tdiv_eq_ediv (by omega) (by decide)]
      unfold guint_of_gint
      unfold G_MAXINT at h1
      omega
    rcases hk with hk | hk <;> subst hk
    · exact ⟨rfl, by simp [encoder_presets, List.lookup], hne⟩
    · exact ⟨rfl, by simp [encoder_presets, List.lookup], hne⟩

/-- C18 (amended), at the VP8 branch built with target 500000, bounds
[0, 1000000] and no overrides: the first run pushes nothing. -/
theorem C18_unit_rules_witness :
    (kms_enc_tree_bin_new registry_vp8 caps_vp8 500000 0 1000000 none
        = some (some (branch_vp8 500000 0 1000000)) ∧
      fused_bitrate (branch_vp8 500000 0 1000000)
        = (branch_vp8 500000 0 1000000).current_bitrate) ∧
    (∃ p v, apply_native_value .X264 500000 = some (p, v) ∧
      (encoder_presets .X264 500000).lookup p = some v) ∧
    ∃ s', kms_enc_tree_bin_set_target_bitrate (branch_vp8 500000 0 1000000) = some s' ∧
      new_pushes (branch_vp8 500000 0 1000000) s' = [] :=
  ⟨by decide,
   C18_unit_rules.2.1 .X264 500000 (by decide) (by decide) (Or.inr (Or.inl rfl)),
   C18_unit_rules.2.2.1 registry_vp8 caps_vp8 500000 0 1000000 (branch_vp8 500000 0 1000000)
     (by decide) (Or.inl rfl) (by decide) (by decide) (by decide)⟩

/-! ## C19 -/

/-- C19 (as stated, refuted): for Theora caps and a registry holding
`theoraenc`, `kms_enc_tree_bin_create_encoder_for_caps` creates `theoraenc0`,
whose name starts with none of the known prefixes: the kind is UNSUPPORTED, no
parameter is configured, and the branch is constructed all the same. -/
theorem C19_counterexample :
    kms_enc_tree_bin_create_encoder_for_caps registry_theora caps_theora 500000 none
      = some (some ({ name := "theoraenc0", props := [("bitrate", 0)] },
                    EncoderType.UNSUPPORTED)) ∧
    (kms_enc_tree_bin_new registry_theora caps_theora 500000 0 1000000 none).map
        (Option.map KmsEncTreeBin.enc_type)
      = some (some EncoderType.UNSUPPORTED) := by
  decide

/-- C19 (amended): whenever `kms_enc_tree_bin_create_encoder_for_caps` creates
an instance, the kind is the one `kms_enc_tree_bin_set_encoder_type` derives
from the instance name; it is UNSUPPORTED exactly when the name starts with
none of the six known prefixes, in which case the instance is left as the
factory created it; and `kms_enc_tree_bin_configure` constructs the branch with
that instance and that kind in either case. -/
theorem C19_kind_of_instance (registry : List GstElementFactory) (caps : GstCaps)
    (target : Int) (cfg : Option (List (String × ConfigField)))
    (e : GstElement) (ty : EncoderType)
    (h : kms_enc_tree_bin_create_encoder_for_caps registry caps target cfg
      = some (some (e, ty))) :
    ty = kms_enc_tree_bin_set_encoder_type e.name ∧
    (ty = .UNSUPPORTED ↔ ∀ p ∈ known_prefixes, g_str_has_prefix e.name p = false) ∧
    (ty = .UNSUPPORTED → ∃ f, f ∈ registry ∧ e = gst_element_factory_create f) ∧
    (∀ mn mx : Int, ∃ s0,
      kms_enc_tree_bin_configure mn mx registry caps target cfg = some (some s0) ∧
      s0.enc_type = ty ∧ s0.enc = e) := by
  obtain ⟨f, hf, _, _, hty, he⟩ := create_encoder_some registry caps target cfg e ty h
  have hname : e.name = (gst_element_factory_create f).name := by
    rw [he]
    exact configure_encoder_name _ _ _ _
  have h1 : ty = kms_enc_tree_bin_set_encoder_type e.name := by
    rw [hname]
    exact hty
  refine ⟨h1, ?_, ?_, ?_⟩
  · rw [h1]
    exact set_encoder_type_unsupported e.name
  · intro hu
    refine ⟨f, hf, ?_⟩
    rw [he, hu, configure_encoder_eq]
    cases cfg <;> rfl
  · intro mn mx
    unfold kms_enc_tree_bin_configure
    rw [h]
    exact ⟨_, rfl, rfl, rfl⟩

/-- C19 (amended), at the H.264 registry: the instance `vaapiencodeh264-0`
gets the kind VAAPIH264, which is not UNSUPPORTED. -/
theorem C19_kind_of_instance_witness :
    kms_enc_tree_bin_create_encoder_for_caps registry_h264 caps_h264 500000 none
      = some (some ({ name := "vaapiencodeh264-0",
                      props := [("bitrate", 500), ("rate-control", 2)] },
                    EncoderType.VAAPIH264)) ∧
    EncoderType.VAAPIH264 = kms_enc_tree_bin_set_encoder_type "vaapiencodeh264-0" ∧
    ∃ s0, kms_enc_tree_bin_configure 0 1000000 registry_h264 caps_h264 500000 none
        = some (some s0) ∧
      s0.enc_type = EncoderType.VAAPIH264 ∧
      s0.enc = { name := "vaapiencodeh264-0",
                 props := [("bitrate", 500), ("rate-control", 2)] } :=
  ⟨by decide,
   (C19_kind_of_instance registry_h264 caps_h264 500000 none
      { name := "vaapiencodeh264-0", props := [("bitrate", 500), ("rate-control", 2)] }
      EncoderType.VAAPIH264 (by decide)).1,
   (C19_kind_of_instance registry_h264 caps_h264 500000 none
      { name := "vaapiencodeh264-0", props := [("bitrate", 500), ("rate-control", 2)] }
      EncoderType.VAAPIH264 (by decide)).2.2.2 0 1000000⟩

/-! ## C20 -/

/-- C20 (the code departs from its own comment): for the negotiated
dimensions (641, 481) the comment above `check_caps_probe` announces a rescale
to 642 and 482, but the probe requests (640, 480); for every odd width the
width requested is the width minus one, never the width plus one, and
likewise for the height. -/
theorem C20_rescale_direction :
    check_caps_probe (.caps 641 481) = some (640, 480) ∧
    check_caps_probe (.caps 641 481) ≠ some (642, 482) ∧
    (∀ width height : Int, width % 2 = 1 →
      ∃ h', check_caps_probe (.caps width height) = some (width - 1, h') ∧
        ∀ h'', check_caps_probe (.caps width height) ≠ some (width + 1, h'')) ∧
    (∀ width height : Int, height % 2 = 1 →
      ∃ w', check_caps_probe (.caps width height) = some (w', height - 1) ∧
        ∀ w'', check_caps_probe (.caps width height) ≠ some (w'', height + 1)) := by
  refine ⟨by decide, by decide, ?_, ?_⟩
  · intro width height hw
    rw [check_caps_probe_eq, if_pos (Or.inl hw), if_pos hw]
    refine ⟨_, rfl, ?_⟩
    intro h'' hc
    simp only [Option.some.injEq, Prod.mk.injEq] at hc
    omega
  · intro width height hh
    rw [check_caps_probe_eq, if_pos (Or.inr hh), if_pos hh]
    refine ⟨_, rfl, ?_⟩
    intro w'' hc
    simp only [Option.some.injEq, Prod.mk.injEq] at hc
    omega

/-! ## C21 -/

/-- C21 (as stated, refuted): a VP8 branch built with target -999 and bounds
[-2000, 1000000] has written -999 to `target-bitrate`; the remote estimate 999
makes `current_bitrate` 999, and since -999 / 1000 and 999 / 1000 are both 0 in
C nothing is written: the encoder parameter and `current_bitrate` have the same
quotient by 1000 but differ by 1998. -/
theorem C21_counterexample :
    (construct_and_run registry_vp8 caps_vp8 (-999) (-2000) 1000000 none
        [.remote_estimate 999]).map KmsEncTreeBin.current_bitrate = some 999 ∧
    (construct_and_run registry_vp8 caps_vp8 (-999) (-2000) 1000000 none
        [.remote_estimate 999]).map KmsEncTreeBin.enc
      = some { name := "vp8enc0",
               props := [("target-bitrate", -999), ("deadline", 200000), ("threads", 1),
                         ("cpu-used", 16), ("resize-allowed", 1), ("end-usage", 1)] } ∧
    Int.tdiv (-999) 1000 = Int.tdiv 999 1000 ∧
    (999 : Int) - (-999) = 1998 := by
  decide

/-- C21 (amended): for every branch state from which a run of
`kms_enc_tree_bin_set_target_bitrate` with a positive target returns, the
`current_bitrate` of the result being a `gint`, the encoder parameter agrees
with `current_bitrate`: `bitrate` equals `current_bitrate` / 500 for VAAPIVP8 and
VAAPIH264 and `current_bitrate` / 1000 for X264; for VP8 `target-bitrate` has the
same quotient by 1000 (C division, towards zero) as `current_bitrate`, so the
two differ by less than 1000 whenever the parameter is not negative; for
OPENH264 `bitrate` has the same quotient by 1000 as `current_bitrate`. -/
theorem C21_encoder_tracks_target (s s' : KmsEncTreeBin)
    (h : kms_enc_tree_bin_set_target_bitrate s = some s')
    (hpos : 0 < s'.current_bitrate) (hmax : s'.current_bitrate ≤ G_MAXINT) :
    (s'.enc_type = .VAAPIVP8 ∨ s'.enc_type = .VAAPIH264 →
      g_object_get s'.enc "bitrate" = s'.current_bitrate / 500) ∧
    (s'.enc_type = .X264 → g_object_get s'.enc "bitrate" = s'.current_bitrate / 1000) ∧
    (s'.enc_type = .VP8 →
      Int.tdiv (g_object_get s'.enc "target-bitrate") 1000 = s'.current_bitrate / 1000 ∧
      (0 ≤ g_object_get s'.enc "target-bitrate" →
        -1000 < g_object_get s'.enc "target-bitrate" - s'.current_bitrate ∧
        g_object_get s'.enc "target-bitrate" - s'.current_bitrate < 1000)) ∧
    (s'.enc_type = .OPENH264 →
      g_object_get s'.enc "bitrate" / 1000 = s'.current_bitrate / 1000) := by
  obtain ⟨_, hcur⟩ := fused_bitrate_after s s' h
  have hs : in_sync s' s'.current_bitrate := by
    rw [hcur]
    exact set_target_sync s s' h (by omega)
  have h500 : guint_of_gint (Int.tdiv s'.current_bitrate 500) = s'.current_bitrate / 500 := by
    rw [Int.tdiv_eq_ediv (by omega) (by decide)]
    unfold guint_of_gint
    unfold G_MAXINT at hmax
    omega
  have h1000 : guint_of_gint (Int.tdiv s'.current_bitrate 1000)
      = s'.current_bitrate / 1000 := by
    rw [tdiv_small _ (by omega) hmax, Int.tdiv_eq_ediv (by omega) (by decide)]
  unfold in_sync at hs
  refine ⟨?_, ?_, ?_, ?_⟩
  · intro hk
    rcases hk with hk | hk <;> rw [hk] at hs <;> simp only at hs <;> rw [hs.1, h500]
  · intro hk
    rw [hk] at hs
    simp only at hs
    rw [hs, h1000]
  · intro hk
    rw [hk] at hs
    simp only at hs
    have hq : Int.tdiv (g_object_get s'.enc "target-bitrate") 1000
        = s'.current_bitrate / 1000 := by
      rw [hs, Int.tdiv_eq_ediv (by omega) (by decide)]
    refine ⟨hq, ?_⟩
    intro h0
    rw [Int.tdiv_eq_ediv h0 (by decide)] at hq
    omega
  · intro hk
    rw [hk] at hs
    simp only at hs
    rw [hs, guint_of_small _ (by omega) hmax]

/-- C21 (amended), at the hardware H.264 branch built with target 500000 and
bounds [0, 1000000] after its first run: the encoder holds 500000 / 500. -/
theorem C21_encoder_tracks_target_witness :
    (kms_enc_tree_bin_set_target_bitrate (branch_h264 500000 0 1000000)
        = some branch_h264_applied ∧
      (0 : Int) < branch_h264_applied.current_bitrate ∧
      branch_h264_applied.current_bitrate ≤ G_MAXINT) ∧
    g_object_get branch_h264_applied.enc "bitrate"
      = branch_h264_applied.current_bitrate / 500 :=
  ⟨by decide,
   (C21_encoder_tracks_target (branch_h264 500000 0 1000000) branch_h264_applied
      (by decide) (by decide) (by decide)).1 (Or.inr rfl)⟩

/-! ## C22 -/

/-- C22: a remote estimate or source hint v with 2^31 <= v < 2^32 is stored as
v - 2^32, which is negative, and the run that follows sets `current_bitrate` to
the clamp of the other signal when that clamp is positive and keeps it
otherwise; a value v with 0 < v < 2^31 is stored as v itself. Both events
return on every branch whose width is set when its kind is a hardware one. -/
theorem C22_signed_storage (self : KmsEncTreeBin) (v : Nat) :
    (2147483648 ≤ v → v < 4294967296 →
      (gint_of_guint v = (v : Int) - 4294967296 ∧ gint_of_guint v < 0) ∧
      (∀ s', bitrate_callback self v = some s' →
        s'.remb_bitrate = (v : Int) - 4294967296 ∧
        s'.current_bitrate =
          if 0 < KMS_ENC_TREE_BIN_LIMIT self.min_bitrate self.max_bitrate self.tag_bitrate then
            KMS_ENC_TREE_BIN_LIMIT self.min_bitrate self.max_bitrate self.tag_bitrate
          else self.current_bitrate) ∧
      (∀ s', tag_event_probe self (.tag (some v)) = some s' →
        s'.tag_bitrate = (v : Int) - 4294967296 ∧
        s'.current_bitrate =
          if 0 < KMS_ENC_TREE_BIN_LIMIT self.min_bitrate self.max_bitrate self.remb_bitrate then
            KMS_ENC_TREE_BIN_LIMIT self.min_bitrate self.max_bitrate self.remb_bitrate
          else self.current_bitrate)) ∧
    (0 < v → v < 2147483648 →
      gint_of_guint v = (v : Int) ∧
      (∀ s', bitrate_callback self v = some s' → s'.remb_bitrate = (v : Int)) ∧
      (∀ s', tag_event_probe self (.tag (some v)) = some s' → s'.tag_bitrate = (v : Int))) ∧
    ((is_vaapi self.enc_type = true → self.width ≠ none) →
      (∃ s', bitrate_callback self v = some s') ∧
      (∃ s', tag_event_probe self (.tag (some v)) = some s')) := by
  have hcb : v ≠ 0 → bitrate_callback self v
      = kms_enc_tree_bin_set_target_bitrate { self with remb_bitrate := gint_of_guint v } := by
    intro hv
    unfold bitrate_callback
    rw [if_pos hv]
  refine ⟨?_, ?_, ?_⟩
  · intro h1 h2
    have hg := gint_of_guint_large v h1 h2
    refine ⟨⟨hg, by rw [hg]; omega⟩, ?_, ?_⟩
    · intro s' hs
      rw [hcb (by omega)] at hs
      obtain ⟨_, _, f3, _, _, f6, _⟩ :=
        set_target_frame { self with remb_bitrate := gint_of_guint v } s' hs
      refine ⟨by rw [f3]; exact hg, ?_⟩
      rw [f6]
      exact fused_of_unknown_remb { self with remb_bitrate := gint_of_guint v }
        (by show gint_of_guint v ≤ 0; rw [hg]; omega)
    · intro s' hs
      obtain ⟨_, _, _, f4, _, f6, _⟩ :=
        set_target_frame { self with tag_bitrate := gint_of_guint v } s' hs
      refine ⟨by rw [f4]; exact hg, ?_⟩
      rw [f6]
      exact fused_of_unknown_tag { self with tag_bitrate := gint_of_guint v }
        (by show gint_of_guint v < 0; rw [hg]; omega)
  · intro h1 h2
    have hg := gint_of_guint_small v h2
    refine ⟨hg, ?_, ?_⟩
    · intro s' hs
      rw [hcb (by omega)] at hs
      have hf := set_target_frame { self with remb_bitrate := gint_of_guint v } s' hs
      rw [hf.2.2.1]
      exact hg
    · intro s' hs
      have hf := set_target_frame { self with tag_bitrate := gint_of_guint v } s' hs
      rw [hf.2.2.2.1]
      exact hg
  · intro hw
    constructor
    · unfold bitrate_callback
      split
      · exact set_target_total { self with remb_bitrate := gint_of_guint v } hw
      · exact ⟨self, rfl⟩
    · exact set_target_total { self with tag_bitrate := gint_of_guint v } hw

/-- C22, at a VP8 branch at 300000 with bounds [0, 1000000] that holds the
source hint 400000: the remote estimate 3000000000 is stored as -1294967296
and the target 400000 comes from the hint alone; the remote estimate 500000 is
stored as 500000. -/
theorem C22_signed_storage_witness :
    ((bitrate_callback { sample_branch .VP8 with tag_bitrate := 400000 } 3000000000).map
          KmsEncTreeBin.remb_bitrate = some (-1294967296) ∧
      (bitrate_callback { sample_branch .VP8 with tag_bitrate := 400000 } 3000000000).map
          KmsEncTreeBin.current_bitrate = some 400000) ∧
    (gint_of_guint 3000000000 = ((3000000000 : Nat) : Int) - 4294967296 ∧
      gint_of_guint 3000000000 < 0) ∧
    gint_of_guint 500000 = ((500000 : Nat) : Int) :=
  ⟨by decide,
   ((C22_signed_storage { sample_branch .VP8 with tag_bitrate := 400000 } 3000000000).1
      (by decide) (by decide)).1,
   ((C22_signed_storage { sample_branch .VP8 with tag_bitrate := 400000 } 500000).2.1
      (by decide) (by decide)).1⟩

/-! ## C23 -/

/-- C23 (as stated, refuted): in `registry_alias` no factory name starts with
`"openh264"`, its one factory is capable of H.264, and the branch built from it
has the kind OPENH264, because the kind is read from the name of the instance,
`"openh264enc0"`, and not from the name of the factory. -/
theorem C23_counterexample :
    openh264_named registry_alias ≤ 1 ∧
    openh264_named registry_alias = 0 ∧
    (kms_enc_tree_bin_new registry_alias caps_h264 300000 0 1000000 none).map
        (Option.map KmsEncTreeBin.enc_type) = some (some .OPENH264) ∧
    (kms_enc_tree_bin_new registry_alias caps_h264 300000 0 1000000 none).map
        (Option.map (fun s => s.enc.name)) = some (some "openh264enc0") := by
  decide

/-- C23 (amended): in a registry where at most one factory name starts with
`"openh264"`, no candidate left after the exclusion has a name starting with
`"openh264enc"`, so every encoder that is created is an instance of a factory
with two pad templates whose name does not start with `"openh264enc"`; when the
only capable factory has such a name no encoder is created and
`kms_enc_tree_bin_new` returns `NULL`; and when in addition instances named
`"openh264enc..."` come only from factories named so, no constructed branch
has the kind OPENH264. -/
theorem C23_boosted_not_selected (registry : List GstElementFactory) (caps : GstCaps)
    (target mn mx : Int) (cfg : Option (List (String × ConfigField)))
    (h : openh264_named registry ≤ 1) :
    (∀ f ∈ after_exclusion (capable_candidates registry caps),
      g_str_has_prefix f.name "openh264enc" = false) ∧
    (∀ enc ty,
      kms_enc_tree_bin_create_encoder_for_caps registry caps target cfg = some (some (enc, ty)) →
      ∃ f, f ∈ registry ∧ f ∈ after_exclusion (capable_candidates registry caps) ∧
        f.num_pad_templates = 2 ∧ g_str_has_prefix f.name "openh264enc" = false ∧
        ty = kms_enc_tree_bin_set_encoder_type (gst_element_factory_create f).name ∧
        enc = configure_encoder (gst_element_factory_create f) ty target cfg) ∧
    (∀ f, gst_element_factory_list_filter registry caps = [f] →
      g_str_has_prefix f.name "openh264enc" = true →
      kms_enc_tree_bin_create_encoder_for_caps registry caps target cfg = some none ∧
      kms_enc_tree_bin_new registry caps target mn mx cfg = some none) ∧
    (openh264_instances_named registry →
      ∀ self, kms_enc_tree_bin_new registry caps target mn mx cfg = some (some self) →
        self.enc_type ≠ .OPENH264) := by
  have hex := exclusion_drops_openh264enc registry caps h
  refine ⟨hex, ?_, ?_, ?_⟩
  · intro enc ty hc
    obtain ⟨f, h1, h2, h3, h4, h5⟩ := create_encoder_some registry caps target cfg enc ty hc
    exact ⟨f, h1, h2, h3, hex f h2, h4, h5⟩
  · intro f hf hx
    have hcap := capable_of_only registry caps f hf
    have hsel : ∀ t, kms_enc_tree_bin_create_encoder_for_caps registry caps t cfg
        = some none := by
      intro t
      rw [create_encoder_of_cons registry caps t cfg f [] hcap]
      have he : after_exclusion [f] = [] := by
        show (if g_str_has_prefix f.name "openh264enc" = true then _ else _) = _
        rw [if_pos hx]
      rw [he]
      rfl
    refine ⟨hsel target, ?_⟩
    unfold kms_enc_tree_bin_new
    exact (configure_of_create mn mx registry caps _ cfg).2 (hsel _)
  · intro hn self hs hty
    obtain ⟨f, h1, h2, _, h4, _⟩ := new_enc registry caps target mn mx cfg self hs
    rw [hty] at h4
    have hi := set_encoder_type_openh264 _ h4.symm
    have hname := hn f h1 hi
    rw [hex f h2] at hname
    cases hname

/-- C23 (amended), at `registry_x264_openh264`, where `openh264enc` is moved to
the front and skipped and the branch is an X264 one, and at `registry_openh264`,
where construction returns `NULL`. -/
theorem C23_boosted_not_selected_witness :
    (openh264_named registry_x264_openh264 ≤ 1 ∧ openh264_named registry_openh264 ≤ 1) ∧
    (kms_enc_tree_bin_new registry_x264_openh264 caps_h264 300000 0 1000000 none).map
        (Option.map KmsEncTreeBin.enc_type) = some (some .X264) ∧
    (∀ self,
      kms_enc_tree_bin_new registry_x264_openh264 caps_h264 300000 0 1000000 none
          = some (some self) →
        self.enc_type ≠ .OPENH264) ∧
    (kms_enc_tree_bin_create_encoder_for_caps registry_openh264 caps_h264 300000 none
        = some none ∧
      kms_enc_tree_bin_new registry_openh264 caps_h264 300000 0 1000000 none = some none) :=
  ⟨by decide, by decide,
   (C23_boosted_not_selected registry_x264_openh264 caps_h264 300000 0 1000000 none
      (by decide)).2.2.2 (by unfold openh264_instances_named; decide),
   (C23_boosted_not_selected registry_openh264 caps_h264 300000 0 1000000 none
      (by decide)).2.2.1 openh264enc_factory (by decide) (by decide)⟩

end Kms
